import Mathlib

/-!
# EcoVerify-Prime — formal verification of the governance-engine core

A shallow embedding, in Lean 4, of the core of the EcoVerify-Prime
autonomic governance engine (`backend/src/ecoverify/`): canonical JSON
serialisation and the signed decision traces (`nhi/signing.py`), the
Cite-Before-Act middleware (`nhi/middleware.py`), the agent state and its
merge policy (`agents/state.py`), the five agent step functions
(`agents/nodes/*.py`), the routers (`agents/edges.py`) and the Mermaid
proof-graph builder (`agents/nodes/finalize.py`).

Modelling conventions:
* Machine reals (Python floats) are modelled as exact rationals `ℚ`;
  Python's `round(x, n)` is modelled as round-half-to-even on `ℚ`.
* SHA-256 is modelled as an injective digest function (the standard
  collision-freeness idealisation); Ed25519 is modelled as a deterministic
  signature scheme that verifies exactly the bytes the matching private
  key produced (correctness + unforgeability idealisation).
* Base-64 encoding/decoding is modelled concretely, following the
  semantics of Python's `base64.b64encode` / `b64decode` with
  `validate=False` (characters outside the alphabet are discarded,
  padding is required, unused trailing bits are ignored).
* External adapters (telemetry simulator, regulatory lookup, Jira stub,
  settlement/risk/FHIR/edutech stubs, the optional LLM) are out of the
  core per the specification; step functions take their outputs as
  explicit arguments.  Wall-clock timestamps and signing keys are
  likewise explicit arguments.
-/

namespace EcoVerify

/-! ## JSON string escaping (`json.dumps` with `ensure_ascii=True`) -/

/-- One lowercase hexadecimal digit (`"%x"` formatting). -/
def hexDigitChar (k : Nat) : Char :=
  if k < 10 then Char.ofNat (48 + k) else Char.ofNat (87 + k)

/-- The four hex digits of a code unit `n < 0x10000` (lowercase, as
Python's `'%04x'`). -/
def hexQuad (n : Nat) : List Char :=
  [hexDigitChar (n / 4096 % 16), hexDigitChar (n / 256 % 16),
   hexDigitChar (n / 16 % 16), hexDigitChar (n % 16)]

/-- `\uXXXX` escape for a code unit `n < 0x10000`. -/
def uEscape (n : Nat) : List Char :=
  '\\' :: 'u' :: hexQuad n

/-- Escape of a single character, following `json.encoder` with
`ensure_ascii=True`: `"` and `\` and the five named control characters
get two-character escapes, all other characters outside `0x20..0x7e`
become `\uXXXX` (astral characters as a UTF-16 surrogate pair). -/
def escChar (c : Char) : List Char :=
  if c = '"' then ['\\', '"']
  else if c = '\\' then ['\\', '\\']
  else if c.toNat = 8 then ['\\', 'b']
  else if c.toNat = 9 then ['\\', 't']
  else if c.toNat = 10 then ['\\', 'n']
  else if c.toNat = 12 then ['\\', 'f']
  else if c.toNat = 13 then ['\\', 'r']
  else if c.toNat < 32 then uEscape c.toNat
  else if c.toNat < 127 then [c]
  else if c.toNat < 65536 then uEscape c.toNat
  else uEscape (55296 + (c.toNat - 65536) / 1024) ++
       uEscape (56320 + (c.toNat - 65536) % 1024)

/-- Escape every character of a string (as a character list). -/
def escList : List Char → List Char
  | [] => []
  | c :: cs => escChar c ++ escList cs

/-! ### Injectivity of the escaper

`escChar` is a prefix code: a decoder `unescFirst` recovers the first
character of an escaped stream.  The decoder exists only to prove
`escList_inj`; it is not part of the embedded program. -/

/-- Value of a lowercase hexadecimal digit. -/
def hexVal (c : Char) : Option Nat :=
  if 48 ≤ c.toNat ∧ c.toNat ≤ 57 then some (c.toNat - 48)
  else if 97 ≤ c.toNat ∧ c.toNat ≤ 102 then some (c.toNat - 87)
  else none

/-- Parse `uXXXX` at the head of the stream. -/
def parseU : List Char → Option (Nat × List Char)
  | 'u' :: h1 :: h2 :: h3 :: h4 :: r =>
    match hexVal h1, hexVal h2, hexVal h3, hexVal h4 with
    | some a, some b, some c, some d => some (a * 4096 + b * 256 + c * 16 + d, r)
    | _, _, _, _ => none
  | _ => none

/-- Combine a decoded high-surrogate `n` with a following low surrogate. -/
def decodeLow (n : Nat) (p : Option (Nat × List Char)) : Option (Char × List Char) :=
  match p with
  | some (m, r4) =>
    if 56320 ≤ m ∧ m < 57344 then
      some (Char.ofNat (65536 + (n - 55296) * 1024 + (m - 56320)), r4)
    else none
  | none => none

/-- After a high surrogate, expect `\uXXXX` with a low surrogate. -/
def decodeSurrogate (n : Nat) : List Char → Option (Char × List Char)
  | '\\' :: r3 => decodeLow n (parseU r3)
  | _ => none

/-- Interpret a parsed `\uXXXX` payload. -/
def decodeU : Option (Nat × List Char) → Option (Char × List Char)
  | some (n, r2) =>
    if 55296 ≤ n ∧ n < 56320 then decodeSurrogate n r2
    else some (Char.ofNat n, r2)
  | none => none

/-- Decode the chunk following a backslash. -/
def unescSlash : List Char → Option (Char × List Char)
  | [] => none
  | c :: r =>
    if c = '"' then some ('"', r)
    else if c = '\\' then some ('\\', r)
    else if c = 'b' then some (Char.ofNat 8, r)
    else if c = 't' then some (Char.ofNat 9, r)
    else if c = 'n' then some (Char.ofNat 10, r)
    else if c = 'f' then some (Char.ofNat 12, r)
    else if c = 'r' then some (Char.ofNat 13, r)
    else decodeU (parseU (c :: r))

/-- Decode the leading escape chunk of an escaped stream. -/
def unescFirst : List Char → Option (Char × List Char)
  | [] => none
  | c :: r => if c = '\\' then unescSlash r else some (c, r)

theorem hexVal_hexDigitChar (k : Nat) (h : k < 16) :
    hexVal (hexDigitChar k) = some k := by
  interval_cases k <;> decide

set_option maxHeartbeats 2000000 in
theorem escChar_ne_nil (c : Char) : escChar c ≠ [] := by
  unfold escChar
  split_ifs
  all_goals exact List.cons_ne_nil _ _

/-- A `Char`'s code point is a Unicode scalar value: outside the
surrogate range and below `0x110000`. -/
theorem char_toNat_valid (c : Char) :
    c.toNat < 55296 ∨ (57344 ≤ c.toNat ∧ c.toNat < 1114112) := by
  rcases c.valid with h | ⟨h1, h2⟩
  · left; exact h
  · right
    have g1 : (57343 : UInt32).toNat < c.val.toNat := h1
    have g2 : c.val.toNat < (1114112 : UInt32).toNat := h2
    have e0 : c.toNat = c.val.toNat := rfl
    have e1 : (57343 : UInt32).toNat = 57343 := rfl
    have e2 : (1114112 : UInt32).toNat = 1114112 := rfl
    exact ⟨by omega, by omega⟩

theorem parseU_hexQuad (n : Nat) (r : List Char) (h : n < 65536) :
    parseU ('u' :: (hexQuad n ++ r)) = some (n, r) := by
  have e1 := hexVal_hexDigitChar (n / 4096 % 16) (by omega)
  have e2 := hexVal_hexDigitChar (n / 256 % 16) (by omega)
  have e3 := hexVal_hexDigitChar (n / 16 % 16) (by omega)
  have e4 := hexVal_hexDigitChar (n % 16) (by omega)
  have hn : n / 4096 % 16 * 4096 + n / 256 % 16 * 256 + n / 16 % 16 * 16 + n % 16 = n := by
    omega
  simp only [hexQuad, List.cons_append, List.nil_append, parseU, e1, e2, e3, e4, hn]

theorem unescSlash_u (n : Nat) (r : List Char)
    (hns : ¬(55296 ≤ n ∧ n < 56320)) (h : n < 65536) :
    unescSlash ('u' :: (hexQuad n ++ r)) = some (Char.ofNat n, r) := by
  show decodeU (parseU ('u' :: (hexQuad n ++ r))) = some (Char.ofNat n, r)
  rw [parseU_hexQuad n r h]
  simp only [decodeU]
  rw [if_neg hns]

theorem unescSlash_pair (hi lo : Nat) (r : List Char)
    (hhi : 55296 ≤ hi ∧ hi < 56320) (hlo : 56320 ≤ lo ∧ lo < 57344) :
    unescSlash ('u' :: (hexQuad hi ++ ('\\' :: 'u' :: (hexQuad lo ++ r)))) =
    some (Char.ofNat (65536 + (hi - 55296) * 1024 + (lo - 56320)), r) := by
  show decodeU (parseU ('u' :: (hexQuad hi ++
      ('\\' :: 'u' :: (hexQuad lo ++ r))))) = _
  rw [parseU_hexQuad _ _ (by omega)]
  simp only [decodeU]
  rw [if_pos hhi]
  show decodeLow _ (parseU ('u' :: (hexQuad lo ++ r))) = _
  rw [parseU_hexQuad _ _ (by omega)]
  simp only [decodeLow]
  rw [if_pos hlo]

theorem unescFirst_cons_plain (c : Char) (r : List Char) (h : c ≠ '\\') :
    unescFirst (c :: r) = some (c, r) := by
  simp only [unescFirst]
  rw [if_neg h]

theorem unescFirst_slash (rest : List Char) :
    unescFirst ('\\' :: rest) = unescSlash rest := by
  simp only [unescFirst]
  rw [if_pos trivial]

/-- Decoding the escape of one character recovers that character and the
rest of the stream: `escChar` is a prefix code. -/
theorem unescFirst_escChar (c : Char) (r : List Char) :
    unescFirst (escChar c ++ r) = some (c, r) := by
  by_cases h1 : c = '"'
  · subst h1; rfl
  by_cases h2 : c = '\\'
  · subst h2; rfl
  by_cases h3 : c.toNat = 8
  · have hc : c = Char.ofNat 8 := by rw [← h3, Char.ofNat_toNat]
    subst hc; rfl
  by_cases h4 : c.toNat = 9
  · have hc : c = Char.ofNat 9 := by rw [← h4, Char.ofNat_toNat]
    subst hc; rfl
  by_cases h5 : c.toNat = 10
  · have hc : c = Char.ofNat 10 := by rw [← h5, Char.ofNat_toNat]
    subst hc; rfl
  by_cases h6 : c.toNat = 12
  · have hc : c = Char.ofNat 12 := by rw [← h6, Char.ofNat_toNat]
    subst hc; rfl
  by_cases h7 : c.toNat = 13
  · have hc : c = Char.ofNat 13 := by rw [← h7, Char.ofNat_toNat]
    subst hc; rfl
  by_cases h8 : c.toNat < 32
  · rw [escChar, if_neg h1, if_neg h2, if_neg h3, if_neg h4, if_neg h5, if_neg h6,
      if_neg h7, if_pos h8]
    have hu := unescSlash_u c.toNat r (by omega) (by omega)
    rw [Char.ofNat_toNat] at hu
    simp only [uEscape, List.cons_append]
    rw [unescFirst_slash]
    exact hu
  by_cases h9 : c.toNat < 127
  · rw [escChar, if_neg h1, if_neg h2, if_neg h3, if_neg h4, if_neg h5, if_neg h6,
      if_neg h7, if_neg h8, if_pos h9, List.cons_append, List.nil_append,
      unescFirst_cons_plain c r h2]
  by_cases h10 : c.toNat < 65536
  · rw [escChar, if_neg h1, if_neg h2, if_neg h3, if_neg h4, if_neg h5, if_neg h6,
      if_neg h7, if_neg h8, if_neg h9, if_pos h10]
    have hval := char_toNat_valid c
    have hu := unescSlash_u c.toNat r (by omega) h10
    rw [Char.ofNat_toNat] at hu
    simp only [uEscape, List.cons_append]
    rw [unescFirst_slash]
    exact hu
  · rw [escChar, if_neg h1, if_neg h2, if_neg h3, if_neg h4, if_neg h5, if_neg h6,
      if_neg h7, if_neg h8, if_neg h9, if_neg h10]
    have hval := char_toNat_valid c
    have hu := unescSlash_pair (55296 + (c.toNat - 65536) / 1024)
      (56320 + (c.toNat - 65536) % 1024) r (by omega) (by omega)
    rw [show 65536 + (55296 + (c.toNat - 65536) / 1024 - 55296) * 1024 +
        (56320 + (c.toNat - 65536) % 1024 - 56320) = c.toNat by omega,
      Char.ofNat_toNat] at hu
    rw [List.append_assoc]
    simp only [uEscape, List.cons_append]
    rw [unescFirst_slash]
    exact hu

theorem escList_cons_unesc (c : Char) (cs r : List Char) :
    unescFirst (escList (c :: cs) ++ r) = some (c, escList cs ++ r) := by
  rw [escList, List.append_assoc, unescFirst_escChar]

theorem escList_ne_nil (c : Char) (cs : List Char) : escList (c :: cs) ≠ [] := by
  rw [escList]
  intro hh
  exact escChar_ne_nil c (List.append_eq_nil.mp hh).1

/-- The JSON string escaper is injective. -/
theorem escList_inj : ∀ (a b : List Char), escList a = escList b → a = b := by
  intro a
  induction a with
  | nil =>
    intro b h
    cases b with
    | nil => rfl
    | cons c cs => exact absurd h.symm (escList_ne_nil c cs)
  | cons c cs ih =>
    intro b h
    cases b with
    | nil => exact absurd h (escList_ne_nil c cs)
    | cons d ds =>
      have ha := escList_cons_unesc c cs []
      have hb := escList_cons_unesc d ds []
      rw [h, hb] at ha
      simp only [Option.some.injEq, Prod.mk.injEq, List.append_nil] at ha
      obtain ⟨hd, hrest⟩ := ha
      rw [hd, ih ds hrest.symm]

/-! ## JSON values and canonical serialisation (`nhi/signing.py`)

`_canonicalise(payload)` in the source is
`json.dumps(payload, sort_keys=True, separators=(",", ":")).encode("utf-8")`:
object keys sorted, no whitespace, `,` and `:` separators, ASCII-only
output (the `ensure_ascii=True` default). -/

/-- A JSON object key as Python's `json.dumps` sees it: a `str`, or an
`int` that `dumps` coerces to its decimal string.  (`dumps` with
mixed-type keys raises `TypeError`; the embedding totalises the order
instead — no decision in the repository uses mixed-type keys.) -/
inductive JKey
  | str (s : String)
  | int (n : Int)

/-- JSON-serialisable values.  Python floats are modelled as exact
rationals; their textual rendering (shortest-roundtrip `repr`) is
abstracted by `ratRepr`. -/
inductive Json
  | null
  | bool (b : Bool)
  | int (n : Int)
  | rat (q : ℚ)
  | str (s : String)
  | arr (elems : List Json)
  | obj (fields : List (JKey × Json))

/-- Code-point lexicographic order on character lists (Python `str <`). -/
def charListLt : List Char → List Char → Bool
  | [], [] => false
  | [], _ :: _ => true
  | _ :: _, [] => false
  | a :: as, b :: bs =>
    if a.toNat < b.toNat then true
    else if b.toNat < a.toNat then false
    else charListLt as bs

/-- `sorted()` comparison on dict keys: ints numerically, strings
lexicographically (mixed types totalised, see `JKey`). -/
def keyLtB : JKey → JKey → Bool
  | .int m, .int n => m < n
  | .str a, .str b => charListLt a.data b.data
  | .int _, .str _ => true
  | .str _, .int _ => false

/-- The decimal string a key contributes to the JSON text. -/
def keyChars : JKey → List Char
  | .str s => s.data
  | .int n => (toString n).data

/-- Decimal rendering of an integer (`json.dumps` of a Python `int`). -/
def intChars (n : Int) : List Char := (toString n).data

/-- Stand-in rendering for Python floats (see the module docstring);
no claim in this development depends on its exact text. -/
def ratRepr (q : ℚ) : List Char := (toString q).data

/-- A JSON string literal: quote, escaped body, quote. -/
def strChars (s : String) : List Char :=
  '"' :: (escList s.data ++ ['"'])

/-- One `"key":value` object entry (`separators=(",", ":")`). -/
def entryChars (k : JKey) (v : List Char) : List Char :=
  '"' :: (escList (keyChars k) ++ ('"' :: ':' :: v))

/-- Join rendered items with `,`. -/
def joinComma : List (List Char) → List Char
  | [] => []
  | [x] => x
  | x :: y :: rest => x ++ (',' :: joinComma (y :: rest))

/-- Insert a rendered field into a key-sorted list of rendered fields. -/
def insortR (p : JKey × List Char) : List (JKey × List Char) → List (JKey × List Char)
  | [] => [p]
  | q :: qs => if keyLtB p.1 q.1 then p :: q :: qs else q :: insortR p qs

/-- Sort rendered fields by key (`sort_keys=True`). -/
def sortRendered : List (JKey × List Char) → List (JKey × List Char)
  | [] => []
  | p :: ps => insortR p (sortRendered ps)

mutual

/-- Canonical JSON text of a value, as a character list. -/
def canonList : Json → List Char
  | .null => "null".data
  | .bool true => "true".data
  | .bool false => "false".data
  | .int n => intChars n
  | .rat q => ratRepr q
  | .str s => strChars s
  | .arr xs => '[' :: (joinComma (canonElems xs) ++ [']'])
  | .obj fs =>
    '\x7b' :: (joinComma ((sortRendered (canonFields fs)).map
      (fun p => entryChars p.1 p.2)) ++ ['\x7d'])

/-- Render array elements in order. -/
def canonElems : List Json → List (List Char)
  | [] => []
  | j :: js => canonList j :: canonElems js

/-- Render object values in field order (sorting happens afterwards and
only permutes whole rendered fields, exactly as `json.dumps` sorts the
items before rendering). -/
def canonFields : List (JKey × Json) → List (JKey × List Char)
  | [] => []
  | (k, v) :: ps => (k, canonList v) :: canonFields ps

end

/-- `_canonicalise(payload)`: deterministic JSON bytes (sorted keys, no
whitespace).  Bytes are modelled as the ASCII character list. -/
def canonicalise (payload : Json) : List Char := canonList payload

/-- The signable payload of a decision trace: everything except the
`signature` and `payload_hash` fields. -/
def signablePayload (agentId timestamp : String) (decision : Json) : Json :=
  .obj [(.str "agent_id", .str agentId),
        (.str "timestamp", .str timestamp),
        (.str "decision", decision)]

theorem keyLt_da : keyLtB (JKey.str "decision") (JKey.str "agent_id") = false := by decide
theorem keyLt_ta : keyLtB (JKey.str "timestamp") (JKey.str "agent_id") = false := by decide
theorem keyLt_td : keyLtB (JKey.str "timestamp") (JKey.str "decision") = false := by decide

theorem canonSignable_shape (a ts : String) (d : Json) :
    canonicalise (signablePayload a ts d) =
      '\x7b' :: (entryChars (JKey.str "agent_id") (strChars a) ++
        (',' :: (entryChars (JKey.str "decision") (canonList d) ++
          (',' :: (entryChars (JKey.str "timestamp") (strChars ts) ++ ['\x7d']))))) := by
  simp only [canonicalise, signablePayload, canonList, canonFields, sortRendered, insortR,
    keyLt_da, keyLt_ta, keyLt_td, if_false, Bool.false_eq_true, List.map, joinComma,
    List.append_assoc, List.cons_append, List.nil_append]

theorem canonSignable_agent_inj (a a' ts : String) (d : Json)
    (h : canonicalise (signablePayload a ts d) = canonicalise (signablePayload a' ts d)) :
    a = a' := by
  rw [canonSignable_shape, canonSignable_shape] at h
  simp only [entryChars, strChars, keyChars, List.cons_append, List.nil_append,
    List.append_assoc, List.cons.injEq, true_and] at h
  have h1 := List.append_cancel_left h
  simp only [List.cons.injEq, true_and] at h1
  exact String.ext (escList_inj _ _ (List.append_cancel_right h1))

theorem canonSignable_timestamp_inj (a ts ts' : String) (d : Json)
    (h : canonicalise (signablePayload a ts d) = canonicalise (signablePayload a ts' d)) :
    ts = ts' := by
  rw [canonSignable_shape, canonSignable_shape] at h
  simp only [entryChars, strChars, keyChars, List.cons_append, List.nil_append,
    List.append_assoc, List.cons.injEq, true_and] at h
  have h1 := List.append_cancel_left h
  simp only [List.cons.injEq, true_and] at h1
  have h2 := List.append_cancel_left h1
  simp only [List.cons.injEq, true_and] at h2
  have h3 := List.append_cancel_left h2
  simp only [List.cons.injEq, true_and] at h3
  have h4 := List.append_cancel_left h3
  simp only [List.cons.injEq, true_and] at h4
  have h5 := List.append_cancel_left h4
  simp only [List.cons.injEq, true_and] at h5
  exact String.ext (escList_inj _ _ (List.append_cancel_right h5))

theorem canonSignable_decision_inj (a ts : String) (d d' : Json)
    (h : canonicalise (signablePayload a ts d) = canonicalise (signablePayload a ts d')) :
    canonList d = canonList d' := by
  rw [canonSignable_shape, canonSignable_shape] at h
  simp only [entryChars, strChars, keyChars, List.cons_append, List.nil_append,
    List.append_assoc, List.cons.injEq, true_and] at h
  have h1 := List.append_cancel_left h
  simp only [List.cons.injEq, true_and] at h1
  have h2 := List.append_cancel_left h1
  simp only [List.cons.injEq, true_and] at h2
  have h3 := List.append_cancel_left h2
  simp only [List.cons.injEq, true_and] at h3
  exact List.append_cancel_right h3

/-! ## Base-64 (Python `base64.b64encode` / `b64decode`, `validate=False`)

`b64decode` on a `str` first encodes it to ASCII (a code point ≥ 128
raises `ValueError`), then runs `binascii.a2b_base64` in non-strict
mode: non-alphabet characters are skipped, a pad character arriving
when the current quad already holds two or three data characters and
completing it *stops* decoding — the bytes decoded so far are returned
and all further input is ignored (`b64decode('QQ==AAAA') == b'A'`) —
a pad earlier in a quad is skipped, and input that ends in the middle
of a quad raises `binascii.Error`. -/

/-- The standard base-64 alphabet. -/
def b64CharOf (k : Nat) : Char :=
  if k < 26 then Char.ofNat (65 + k)
  else if k < 52 then Char.ofNat (97 + (k - 26))
  else if k < 62 then Char.ofNat (48 + (k - 52))
  else if k = 62 then '+'
  else '/'

/-- Membership in the base-64 alphabet. -/
def isB64Char (c : Char) : Bool :=
  (65 ≤ c.toNat && c.toNat ≤ 90) || (97 ≤ c.toNat && c.toNat ≤ 122) ||
  (48 ≤ c.toNat && c.toNat ≤ 57) || c = '+' || c = '/'

/-- Value of a base-64 alphabet character. -/
def b64ValOf (c : Char) : Nat :=
  if 65 ≤ c.toNat ∧ c.toNat ≤ 90 then c.toNat - 65
  else if 97 ≤ c.toNat ∧ c.toNat ≤ 122 then c.toNat - 97 + 26
  else if 48 ≤ c.toNat ∧ c.toNat ≤ 57 then c.toNat - 48 + 52
  else if c = '+' then 62
  else 63

/-- `base64.b64encode` on a byte list: three bytes per four characters,
with `=` padding. -/
def b64encodeBytes : List Nat → List Char
  | [] => []
  | [x] => [b64CharOf (x / 4), b64CharOf (x % 4 * 16), '=', '=']
  | [x, y] => [b64CharOf (x / 4), b64CharOf (x % 4 * 16 + y / 16), b64CharOf (y % 16 * 4), '=']
  | x :: y :: z :: rest =>
    b64CharOf (x / 4) :: b64CharOf (x % 4 * 16 + y / 16) ::
    b64CharOf (y % 16 * 4 + z / 64) :: b64CharOf (z % 64) :: b64encodeBytes rest

/-- ASCII test: Python's `str.encode("ascii")` succeeds iff every code
point is below 128. -/
def isAscii (c : Char) : Bool := c.toNat < 128

/-- CPython's `binascii.a2b_base64` in non-strict mode, as a state
machine over (`qp`, `left`, `pads`, `acc`): `qp` counts the position in
the current quad, `left` holds the pending low bits of the previous
data character, `pads` the pad characters seen since the last data
character, `acc` the bytes decoded so far.  A pad at `qp ≥ 2` that
completes the quad (`qp + pads + 1 ≥ 4`) stops decoding, returning the
bytes so far and ignoring the rest of the input; a pad at `qp < 2` and
every non-alphabet character is skipped; input ending mid-quad raises
(`none`). -/
def a2bBase64 : List Char → Nat → Nat → Nat → List Nat → Option (List Nat)
  | [], qp, _, _, acc => if qp = 0 then some acc else none
  | ch :: rest, qp, left, pads, acc =>
    if ch = '=' then
      if 2 ≤ qp then
        if 4 ≤ qp + pads + 1 then some acc
        else a2bBase64 rest qp left (pads + 1) acc
      else a2bBase64 rest qp left pads acc
    else if isB64Char ch then
      if qp = 0 then a2bBase64 rest 1 (b64ValOf ch) 0 acc
      else if qp = 1 then
        a2bBase64 rest 2 (b64ValOf ch % 16) 0 (acc ++ [left * 4 + b64ValOf ch / 16])
      else if qp = 2 then
        a2bBase64 rest 3 (b64ValOf ch % 4) 0 (acc ++ [left * 16 + b64ValOf ch / 4])
      else a2bBase64 rest 0 0 0 (acc ++ [left * 64 + b64ValOf ch])
    else a2bBase64 rest qp left pads acc

/-- `base64.b64decode(s)` with `validate=False` on a `str` argument:
encode to ASCII (`none` models the `ValueError` raised on a code point
≥ 128), then run the non-strict decoder; `none` also models the
`binascii.Error` raised on incorrect padding. -/
def b64decodePy (s : String) : Option (List Nat) :=
  if s.data.all isAscii then a2bBase64 s.data 0 0 0 [] else none

theorem b64ValOf_b64CharOf (k : Nat) (h : k < 64) : b64ValOf (b64CharOf k) = k := by
  interval_cases k <;> decide

theorem b64CharOf_ne_pad (k : Nat) (h : k < 64) : b64CharOf k ≠ '=' := by
  interval_cases k <;> decide

theorem isB64Char_b64CharOf (k : Nat) (h : k < 64) : isB64Char (b64CharOf k) = true := by
  interval_cases k <;> decide

theorem b64CharOf_ascii (k : Nat) (h : k < 64) : (b64CharOf k).toNat < 128 := by
  interval_cases k <;> decide

/-- Every character the encoder emits is ASCII. -/
theorem b64encode_ascii : ∀ (bs : List Nat), (∀ b ∈ bs, b < 256) →
    ∀ c ∈ b64encodeBytes bs, c.toNat < 128
  | [], _ => by simp [b64encodeBytes]
  | [x], h => by
    have hx : x < 256 := h x (by simp)
    have a1 := b64CharOf_ascii (x / 4) (by omega)
    have a2 := b64CharOf_ascii (x % 4 * 16) (by omega)
    intro c hc
    simp only [b64encodeBytes, List.mem_cons, List.not_mem_nil, or_false] at hc
    rcases hc with rfl | rfl | rfl | rfl
    · exact a1
    · exact a2
    · decide
    · decide
  | [x, y], h => by
    have hx : x < 256 := h x (by simp)
    have hy : y < 256 := h y (by simp)
    have a1 := b64CharOf_ascii (x / 4) (by omega)
    have a2 := b64CharOf_ascii (x % 4 * 16 + y / 16) (by omega)
    have a3 := b64CharOf_ascii (y % 16 * 4) (by omega)
    intro c hc
    simp only [b64encodeBytes, List.mem_cons, List.not_mem_nil, or_false] at hc
    rcases hc with rfl | rfl | rfl | rfl
    · exact a1
    · exact a2
    · exact a3
    · decide
  | x :: y :: z :: rest, h => by
    have hx : x < 256 := h x (by simp)
    have hy : y < 256 := h y (by simp)
    have hz : z < 256 := h z (by simp)
    have a1 := b64CharOf_ascii (x / 4) (by omega)
    have a2 := b64CharOf_ascii (x % 4 * 16 + y / 16) (by omega)
    have a3 := b64CharOf_ascii (y % 16 * 4 + z / 64) (by omega)
    have a4 := b64CharOf_ascii (z % 64) (by omega)
    have ih := b64encode_ascii rest (fun b hb => h b (by simp [hb]))
    intro c hc
    simp only [b64encodeBytes, List.mem_cons] at hc
    rcases hc with rfl | rfl | rfl | rfl | hc
    · exact a1
    · exact a2
    · exact a3
    · exact a4
    · exact ih c hc

/-- Running the decoder on the encoder's output from the initial state
appends exactly the encoded bytes: the single-byte tail `xy==` stops at
its second pad, the two-byte tail `xyz=` at its first, and full quads
recurse. -/
theorem a2bBase64_encode : ∀ (bs : List Nat), (∀ b ∈ bs, b < 256) →
    ∀ (acc : List Nat), a2bBase64 (b64encodeBytes bs) 0 0 0 acc = some (acc ++ bs)
  | [], _, acc => by simp [b64encodeBytes, a2bBase64]
  | [x], h, acc => by
    have hx : x < 256 := h x (by simp)
    have g1 := b64CharOf_ne_pad (x / 4) (by omega)
    have g2 := b64CharOf_ne_pad (x % 4 * 16) (by omega)
    have i1 := isB64Char_b64CharOf (x / 4) (by omega)
    have i2 := isB64Char_b64CharOf (x % 4 * 16) (by omega)
    have e1 := b64ValOf_b64CharOf (x / 4) (by omega)
    have e2 := b64ValOf_b64CharOf (x % 4 * 16) (by omega)
    simp [b64encodeBytes, a2bBase64, g1, g2, i1, i2, e1, e2]
    all_goals omega
  | [x, y], h, acc => by
    have hx : x < 256 := h x (by simp)
    have hy : y < 256 := h y (by simp)
    have g1 := b64CharOf_ne_pad (x / 4) (by omega)
    have g2 := b64CharOf_ne_pad (x % 4 * 16 + y / 16) (by omega)
    have g3 := b64CharOf_ne_pad (y % 16 * 4) (by omega)
    have i1 := isB64Char_b64CharOf (x / 4) (by omega)
    have i2 := isB64Char_b64CharOf (x % 4 * 16 + y / 16) (by omega)
    have i3 := isB64Char_b64CharOf (y % 16 * 4) (by omega)
    have e1 := b64ValOf_b64CharOf (x / 4) (by omega)
    have e2 := b64ValOf_b64CharOf (x % 4 * 16 + y / 16) (by omega)
    have e3 := b64ValOf_b64CharOf (y % 16 * 4) (by omega)
    simp [b64encodeBytes, a2bBase64, g1, g2, g3, i1, i2, i3, e1, e2, e3]
    all_goals omega
  | x :: y :: z :: rest, h, acc => by
    have hx : x < 256 := h x (by simp)
    have hy : y < 256 := h y (by simp)
    have hz : z < 256 := h z (by simp)
    have g1 := b64CharOf_ne_pad (x / 4) (by omega)
    have g2 := b64CharOf_ne_pad (x % 4 * 16 + y / 16) (by omega)
    have g3 := b64CharOf_ne_pad (y % 16 * 4 + z / 64) (by omega)
    have g4 := b64CharOf_ne_pad (z % 64) (by omega)
    have i1 := isB64Char_b64CharOf (x / 4) (by omega)
    have i2 := isB64Char_b64CharOf (x % 4 * 16 + y / 16) (by omega)
    have i3 := isB64Char_b64CharOf (y % 16 * 4 + z / 64) (by omega)
    have i4 := isB64Char_b64CharOf (z % 64) (by omega)
    have e1 := b64ValOf_b64CharOf (x / 4) (by omega)
    have e2 := b64ValOf_b64CharOf (x % 4 * 16 + y / 16) (by omega)
    have e3 := b64ValOf_b64CharOf (y % 16 * 4 + z / 64) (by omega)
    have e4 := b64ValOf_b64CharOf (z % 64) (by omega)
    have ih := a2bBase64_encode rest (fun b hb => h b (by simp [hb]))
    simp [b64encodeBytes, a2bBase64, g1, g2, g3, g4, i1, i2, i3, i4, e1, e2, e3, e4, ih]
    all_goals omega

/-- Agreement of the decoder model with CPython 3.11 on the boundary
cases (checked against `base64.b64decode`): truncation after a complete
pad group, incorrect-padding errors, skipped early pads, skipped
non-alphabet characters, and the ValueError on non-ASCII input. -/
theorem a2bBase64_python_agreement :
    b64decodePy "QQ==AAAA" = some [65] ∧
    b64decodePy "QQ=A" = none ∧
    b64decodePy "QQQ=" = some [65, 4] ∧
    b64decodePy "Q=Q==" = some [65] ∧
    b64decodePy "QQ" = none ∧
    b64decodePy "!!!!" = some [] ∧
    b64decodePy "é" = none := by decide

/-! ## Keys, SHA-256 and Ed25519 (`nhi/keys.py`, `nhi/signing.py`)

SHA-256 is modelled as an injective digest function (collision freedom
is the standard idealisation; the real digest is 64 hex characters,
which no signing-layer claim depends on).  Ed25519 is modelled as a
deterministic signature scheme: a signature verifies under a public key
iff it is byte-for-byte the signature the matching private key produces
over the same message (correctness + strong unforgeability). -/

structure Ed25519PrivateKey where
  seed : Nat

structure Ed25519PublicKey where
  seed : Nat

/-- Derive the public half of a keypair. -/
def publicKeyOf (sk : Ed25519PrivateKey) : Ed25519PublicKey := ⟨sk.seed⟩

/-- Three little-endian base-256 digits of a character's code point. -/
def charBytes (c : Char) : List Nat :=
  [c.toNat % 256, c.toNat / 256 % 256, c.toNat / 65536 % 256]

/-- Symbolic Ed25519 signing: deterministic bytes from key and message. -/
def edSign (sk : Ed25519PrivateKey) (msg : List Char) : List Nat :=
  sk.seed % 256 :: (msg.map charBytes).flatten

/-- Symbolic Ed25519 verification. -/
def edVerify (pk : Ed25519PublicKey) (sig : List Nat) (msg : List Char) : Bool :=
  sig == edSign ⟨pk.seed⟩ msg

theorem edSign_bytes_lt (sk : Ed25519PrivateKey) (msg : List Char) :
    ∀ b ∈ edSign sk msg, b < 256 := by
  intro b hb
  simp only [edSign, List.mem_cons, List.mem_flatten, List.mem_map] at hb
  rcases hb with rfl | ⟨l, ⟨c, _, rfl⟩, hbl⟩
  · exact Nat.mod_lt _ (by omega)
  · simp only [charBytes, List.mem_cons, List.not_mem_nil, or_false] at hbl
    rcases hbl with rfl | rfl | rfl <;> exact Nat.mod_lt _ (by omega)

/-- SHA-256 hex digest, modelled as an injective digest function. -/
def sha256hex (msg : List Char) : String := ⟨'h' :: msg⟩

theorem sha256hex_inj (m1 m2 : List Char) (h : sha256hex m1 = sha256hex m2) :
    m1 = m2 := by
  have := congrArg String.data h
  simp only [sha256hex] at this
  exact List.tail_eq_of_cons_eq this

/-! ## Decision traces (`nhi/signing.py`) -/

/-- Immutable, signed record of an agent decision. -/
structure DecisionTrace where
  agent_id : String
  timestamp : String
  decision : Json
  payload_hash : String
  signature : String

/-- `sign_decision_trace(agent_id, decision, private_key)`
(signing.py:66-98).  The source stamps the trace with
`datetime.now(timezone.utc).isoformat()`; the clock reading is the
explicit `timestamp` argument here. -/
def sign_decision_trace (agent_id : String) (decision : Json)
    (timestamp : String) (private_key : Ed25519PrivateKey) : DecisionTrace :=
  let canonical := canonicalise (signablePayload agent_id timestamp decision)
  { agent_id := agent_id
    timestamp := timestamp
    decision := decision
    payload_hash := sha256hex canonical
    signature := ⟨b64encodeBytes (edSign private_key canonical)⟩ }

/-- `verify_decision_trace(trace, public_key)` (signing.py:104-129):
recompute the canonical payload, check the hash first, then base-64
decode the signature and verify it; every failure (hash mismatch,
malformed base-64, signature mismatch) returns `false`, mirroring the
source's `return False` paths and its catch-all `except`. -/
def verify_decision_trace (trace : DecisionTrace)
    (public_key : Ed25519PublicKey) : Bool :=
  let canonical := canonicalise (signablePayload trace.agent_id trace.timestamp trace.decision)
  let expected_hash := sha256hex canonical
  if expected_hash ≠ trace.payload_hash then false
  else
    match b64decodePy trace.signature with
    | none => false
    | some sig_bytes => edVerify public_key sig_bytes canonical

theorem b64decodePy_encode (bs : List Nat) (h : ∀ b ∈ bs, b < 256) :
    b64decodePy ⟨b64encodeBytes bs⟩ = some bs := by
  have hall : (b64encodeBytes bs).all isAscii = true := by
    rw [List.all_eq_true]
    intro c hc
    simpa [isAscii] using b64encode_ascii bs h c hc
  simp only [b64decodePy]
  rw [if_pos hall]
  simpa using a2bBase64_encode bs h []

/-- C1: for every agent id, every JSON-serialisable decision, every
timestamp, and every Ed25519 keypair `(sk, publicKeyOf sk)`, verifying
the trace produced by `sign_decision_trace` against the matching public
key returns `true`. -/
theorem verify_sign_roundtrip (agent : String) (d : Json) (ts : String)
    (sk : Ed25519PrivateKey) :
    verify_decision_trace (sign_decision_trace agent d ts sk) (publicKeyOf sk) = true := by
  simp only [verify_decision_trace, sign_decision_trace, publicKeyOf]
  rw [if_neg (fun hcon => hcon rfl)]
  rw [b64decodePy_encode _ (edSign_bytes_lt sk _)]
  show edVerify ⟨sk.seed⟩ (edSign sk _) _ = true
  simp only [edVerify]
  exact beq_self_eq_true _

theorem verify_mut_hash (agent : String) (d : Json) (ts : String) (sk : Ed25519PrivateKey)
    (h' : String) (hne : h' ≠ (sign_decision_trace agent d ts sk).payload_hash) :
    verify_decision_trace { sign_decision_trace agent d ts sk with payload_hash := h' }
      (publicKeyOf sk) = false := by
  simp only [sign_decision_trace] at hne ⊢
  simp only [verify_decision_trace]
  rw [if_pos (fun hh => hne hh.symm)]

theorem verify_mut_agent (agent a' : String) (d : Json) (ts : String) (sk : Ed25519PrivateKey)
    (hne : a' ≠ agent) :
    verify_decision_trace { sign_decision_trace agent d ts sk with agent_id := a' }
      (publicKeyOf sk) = false := by
  simp only [sign_decision_trace, verify_decision_trace]
  rw [if_pos ?hcond]
  case hcond =>
    intro hh
    exact hne (canonSignable_agent_inj a' agent ts d (sha256hex_inj _ _ hh))

theorem verify_mut_timestamp (agent : String) (d : Json) (ts ts' : String)
    (sk : Ed25519PrivateKey) (hne : ts' ≠ ts) :
    verify_decision_trace { sign_decision_trace agent d ts sk with timestamp := ts' }
      (publicKeyOf sk) = false := by
  simp only [sign_decision_trace, verify_decision_trace]
  rw [if_pos ?hcond]
  case hcond =>
    intro hh
    exact hne (canonSignable_timestamp_inj agent ts' ts d (sha256hex_inj _ _ hh))

theorem verify_mut_decision (agent : String) (d d' : Json) (ts : String)
    (sk : Ed25519PrivateKey) (hne : canonList d' ≠ canonList d) :
    verify_decision_trace { sign_decision_trace agent d ts sk with decision := d' }
      (publicKeyOf sk) = false := by
  simp only [sign_decision_trace, verify_decision_trace]
  rw [if_pos ?hcond]
  case hcond =>
    intro hh
    exact hne (canonSignable_decision_inj agent ts d' d (sha256hex_inj _ _ hh))

theorem verify_mut_signature (agent : String) (d : Json) (ts : String)
    (sk : Ed25519PrivateKey) (s' : String)
    (hne : b64decodePy s' ≠ b64decodePy (sign_decision_trace agent d ts sk).signature) :
    verify_decision_trace { sign_decision_trace agent d ts sk with signature := s' }
      (publicKeyOf sk) = false := by
  simp only [sign_decision_trace] at hne ⊢
  simp only [verify_decision_trace]
  rw [if_neg (fun hcon => hcon rfl)]
  rw [b64decodePy_encode _ (edSign_bytes_lt sk _)] at hne
  cases hdec : b64decodePy s' with
  | none => rfl
  | some bs =>
    rw [hdec] at hne
    show edVerify ⟨sk.seed⟩ bs _ = false
    simp only [edVerify]
    rw [beq_eq_false_iff_ne]
    intro hbs
    exact hne (by rw [hbs])

theorem verify_malformed_sig (t : DecisionTrace) (pk : Ed25519PublicKey)
    (h : b64decodePy t.signature = none)
    (hh : sha256hex (canonicalise (signablePayload t.agent_id t.timestamp t.decision)) =
      t.payload_hash) :
    verify_decision_trace t pk = false := by
  simp only [verify_decision_trace]
  rw [if_neg (fun hcon => hcon hh), h]

/-- C2 (amended): for every trace produced by `sign_decision_trace`,
verification against the matching public key returns `false` (it never
raises — the function is total) after mutating
* `payload_hash` to any different string,
* `agent_id` to any different string,
* `timestamp` to any different string,
* `decision` to any value whose canonical JSON differs, or
* `signature` to any string whose (forgiving, Python-style) base-64
  decoding differs from the original's — in particular any malformed
  base-64 string.

The two weakenings relative to the claim as stated are forced by
`verify_tamper_counterexample`: distinct decisions with identical
canonical JSON (int vs str keys) still verify, and a signature string
that decodes to the same bytes still verifies — e.g. with a stray
newline appended, or with arbitrary further data appended after the
signature's final `==` pad group, where CPython's non-strict decoder
stops and ignores the rest. -/
theorem verify_tamper_amended (agent : String) (d : Json) (ts : String)
    (sk : Ed25519PrivateKey) :
    (∀ h', h' ≠ (sign_decision_trace agent d ts sk).payload_hash →
      verify_decision_trace
        { sign_decision_trace agent d ts sk with payload_hash := h' }
        (publicKeyOf sk) = false) ∧
    (∀ a', a' ≠ agent →
      verify_decision_trace
        { sign_decision_trace agent d ts sk with agent_id := a' }
        (publicKeyOf sk) = false) ∧
    (∀ ts', ts' ≠ ts →
      verify_decision_trace
        { sign_decision_trace agent d ts sk with timestamp := ts' }
        (publicKeyOf sk) = false) ∧
    (∀ d', canonicalise d' ≠ canonicalise d →
      verify_decision_trace
        { sign_decision_trace agent d ts sk with decision := d' }
        (publicKeyOf sk) = false) ∧
    (∀ s', b64decodePy s' ≠ b64decodePy (sign_decision_trace agent d ts sk).signature →
      verify_decision_trace
        { sign_decision_trace agent d ts sk with signature := s' }
        (publicKeyOf sk) = false) :=
  ⟨fun h' hne => verify_mut_hash agent d ts sk h' hne,
   fun a' hne => verify_mut_agent agent a' d ts sk hne,
   fun ts' hne => verify_mut_timestamp agent d ts ts' sk hne,
   fun d' hne => verify_mut_decision agent d d' ts sk hne,
   fun s' hne => verify_mut_signature agent d ts sk s' hne⟩

set_option maxRecDepth 100000 in
/-- Witness for C2 (amended): each clause applied at concrete inputs. -/
theorem verify_tamper_amended_witness :
    verify_decision_trace
      { sign_decision_trace "v" Json.null "t" ⟨0⟩ with payload_hash := "x" }
      (publicKeyOf ⟨0⟩) = false ∧
    verify_decision_trace
      { sign_decision_trace "v" Json.null "t" ⟨0⟩ with agent_id := "w" }
      (publicKeyOf ⟨0⟩) = false ∧
    verify_decision_trace
      { sign_decision_trace "v" Json.null "t" ⟨0⟩ with timestamp := "u" }
      (publicKeyOf ⟨0⟩) = false ∧
    verify_decision_trace
      { sign_decision_trace "v" Json.null "t" ⟨0⟩ with decision := Json.int 2 }
      (publicKeyOf ⟨0⟩) = false ∧
    verify_decision_trace
      { sign_decision_trace "v" Json.null "t" ⟨0⟩ with signature := "!" }
      (publicKeyOf ⟨0⟩) = false :=
  ⟨(verify_tamper_amended "v" Json.null "t" ⟨0⟩).1 "x" (by decide),
   (verify_tamper_amended "v" Json.null "t" ⟨0⟩).2.1 "w" (by decide),
   (verify_tamper_amended "v" Json.null "t" ⟨0⟩).2.2.1 "u" (by decide),
   (verify_tamper_amended "v" Json.null "t" ⟨0⟩).2.2.2.1 (Json.int 2) (by decide),
   (verify_tamper_amended "v" Json.null "t" ⟨0⟩).2.2.2.2 "!" (by decide)⟩

set_option maxRecDepth 100000 in
/-- Counterexample to C2 as stated: with the decision `{1: "a"}` (an
int-keyed dict), (a) mutating the decision to the distinct dict
`{"1": "a"}` leaves verification succeeding, because `json.dumps`
coerces both to the same canonical text; (b) mutating the signature by
appending a newline — a different string — also leaves verification
succeeding, because Python's base-64 decoder stops at the signature's
final `==` pad group (and skips non-alphabet characters anyway); and
(c) even appending the decodable group `QQ==` leaves verification
succeeding — the decoder truncates at the first complete pad group, so
everything after the genuine signature's `==` is ignored. -/
theorem verify_tamper_counterexample :
    (Json.obj [(JKey.str "1", Json.str "a")] ≠ Json.obj [(JKey.int 1, Json.str "a")]) ∧
    verify_decision_trace
      { sign_decision_trace "v" (Json.obj [(JKey.int 1, Json.str "a")]) "t" ⟨0⟩ with
        decision := Json.obj [(JKey.str "1", Json.str "a")] }
      (publicKeyOf ⟨0⟩) = true ∧
    ((sign_decision_trace "v" (Json.obj [(JKey.int 1, Json.str "a")]) "t" ⟨0⟩).signature
        ++ "\n"
      ≠ (sign_decision_trace "v" (Json.obj [(JKey.int 1, Json.str "a")]) "t" ⟨0⟩).signature) ∧
    verify_decision_trace
      { sign_decision_trace "v" (Json.obj [(JKey.int 1, Json.str "a")]) "t" ⟨0⟩ with
        signature :=
          (sign_decision_trace "v" (Json.obj [(JKey.int 1, Json.str "a")]) "t" ⟨0⟩).signature
            ++ "\n" }
      (publicKeyOf ⟨0⟩) = true ∧
    ((sign_decision_trace "v" (Json.obj [(JKey.int 1, Json.str "a")]) "t" ⟨0⟩).signature
        ++ "QQ=="
      ≠ (sign_decision_trace "v" (Json.obj [(JKey.int 1, Json.str "a")]) "t" ⟨0⟩).signature) ∧
    verify_decision_trace
      { sign_decision_trace "v" (Json.obj [(JKey.int 1, Json.str "a")]) "t" ⟨0⟩ with
        signature :=
          (sign_decision_trace "v" (Json.obj [(JKey.int 1, Json.str "a")]) "t" ⟨0⟩).signature
            ++ "QQ==" }
      (publicKeyOf ⟨0⟩) = true := by
  refine ⟨?_, by decide, by decide, by decide, by decide, by decide⟩
  intro h
  injection h with hf
  simp at hf

/-! ## Cite-Before-Act middleware (`nhi/middleware.py`) -/

/-- Proof that a data source was consulted before acting
(`CitationBlock`, signing.py:46-52). -/
structure CitationBlock where
  source_id : String
  data_hash : String
  timestamp : String
  snippet : String

/-- `verify_citations_present(citations)` (middleware.py:53-62): `False`
on an empty list; `False` if any citation's `data_hash` is falsy or not
of length 64; `True` otherwise.  The source's early-return loop is the
`all` here. -/
def verify_citations_present (citations : List CitationBlock) : Bool :=
  if citations.isEmpty then false
  else citations.all (fun c => !c.data_hash.isEmpty && c.data_hash.length == 64)

/-- The "64 hex chars" invariant in the specification's words:
64 hexadecimal characters. -/
def isHexChar (c : Char) : Bool :=
  ('0' ≤ c && c ≤ '9') || ('a' ≤ c && c ≤ 'f') || ('A' ≤ c && c ≤ 'F')

/-- The spec-side predicate C7 asserts of every accepted `data_hash`. -/
def specHex64 (s : String) : Prop :=
  s.length = 64 ∧ ∀ c ∈ s.data, isHexChar c

/-- A 64-character `data_hash` that is not hexadecimal. -/
def zHash : String := ⟨List.replicate 64 'z'⟩

/-- A citation block carrying `zHash`. -/
def zCitation : CitationBlock := ⟨"src", zHash, "t", ""⟩

/-- Counterexample to C7 as stated: a citation whose `data_hash` is 64
`'z'` characters — not hexadecimal — is accepted by
`verify_citations_present`, because the source checks only the length. -/
theorem citations_present_counterexample :
    verify_citations_present [zCitation] = true ∧
    ¬ (([zCitation] : List CitationBlock) ≠ [] ∧
       ∀ c ∈ [zCitation], specHex64 c.data_hash) := by
  constructor
  · decide
  · intro ⟨_, hall⟩
    have := (hall zCitation (by simp)).2
    have hz : ('z' : Char) ∈ zHash.data := by decide
    have := this 'z' hz
    simp [isHexChar] at this

/-- C7 (amended): `verify_citations_present` returns `true` iff the
list is non-empty and every citation's `data_hash` has length exactly
64 — any characters; the source never checks that they are
hexadecimal. -/
theorem citations_present_iff (citations : List CitationBlock) :
    verify_citations_present citations = true ↔
      citations ≠ [] ∧ ∀ c ∈ citations, c.data_hash.length = 64 := by
  unfold verify_citations_present
  cases citations with
  | nil => simp
  | cons c cs =>
    simp only [List.isEmpty_cons, if_false, Bool.false_eq_true, List.all_eq_true,
      Bool.and_eq_true, Bool.not_eq_true', ne_eq, reduceCtorEq, not_false_iff, true_and]
    constructor
    · intro hall x hx
      exact beq_iff_eq.mp (hall x hx).2
    · intro hall x hx
      refine ⟨?_, beq_iff_eq.mpr (hall x hx)⟩
      have h64 := hall x hx
      have hne : ¬ x.data_hash.isEmpty = true := by
        rw [String.isEmpty_iff]
        intro hcon
        rw [hcon] at h64
        simp at h64
      exact Bool.eq_false_iff.mpr hne

/-- `cite_data_source(source_id, data, snippet="")` (middleware.py:20-50):
hash the canonicalised payload bytes and truncate the snippet to 200
characters.  The payload's canonical bytes are the explicit `data`
argument (the adapters that produce them are out of the core). -/
def cite_data_source (source_id : String) (data : List Char)
    (timestamp : String) (snippet : String) : CitationBlock :=
  { source_id := source_id
    data_hash := sha256hex data
    timestamp := timestamp
    snippet := if snippet.isEmpty then "" else snippet.take 200 }

/-! ## Python `round` on exact rationals -/

/-- Round to the nearest integer, ties to even (IEEE/Python `round`). -/
def roundHalfEven (x : ℚ) : ℤ :=
  let n := ⌊x⌋
  if x - n < 1 / 2 then n
  else if 1 / 2 < x - n then n + 1
  else if Even n then n else n + 1

/-- Python's `round(q, nd)` on exact rationals. -/
def pyRound (nd : Nat) (q : ℚ) : ℚ :=
  (roundHalfEven (q * 10 ^ nd) : ℚ) / 10 ^ nd

/-! ## The execution state and its merge policy (`agents/state.py`)

`EcoVerifyState` is a `TypedDict`; fields annotated with `operator.add`
(or `add_messages` for `messages`) accumulate, all others are replaced
by a step's delta.  A delta is a partial record: `none` / `[]` model an
absent key.  The five step functions only ever emit id-less messages,
for which `add_messages` appends (its id-based upsert needs an id
collision, which fresh ids rule out), so `messages` merges by
concatenation here. -/

/-- A dialog entry (`langchain_core` `AIMessage(content=…, name=…)`). -/
structure AIMessage where
  content : String
  name : String

/-- A generative-UI event.  The embedding models the five fields every
`neural_feed` event carries; events with structured payloads
(`governor_panel`, `proof_graph`, `3d_update`, `execution_complete`, …)
carry their payload in the `message` slot or leave fields blank — no
claim inspects those payloads. -/
structure UiEvent where
  type : String
  agent : String
  message : String
  severity : String
  timestamp : String

/-- The `summary` block of one BMS telemetry payload (`mcp/tools/bms.py`):
`avg`/`peak`/`total` stand for `avg_kwh`/`peak_kwh`/`total_kwh`
(energy) or `avg_gallons`/`peak_gallons`/`total_gallons` (water). -/
structure TelemetrySummary where
  avg : ℚ
  peak : ℚ
  anomaly_count : Nat
  total : ℚ
  hours_sampled : Nat

/-- The telemetry snapshot a Detector run stores (hourly readings are
not modelled; no claim inspects them). -/
structure Telemetry where
  energy : TelemetrySummary
  water : TelemetrySummary

/-- An anomaly record as the Detector emits it (`peak`/`avg` stand for
`peak_kwh`/`avg_kwh` or `peak_gallons`/`avg_gallons`). -/
structure Anomaly where
  type : String
  building_id : String
  severity : String
  metric : String
  peak : ℚ
  avg : ℚ
  anomaly_count : Nat
  detected_at : String

/-- One per-anomaly entry of a compliance report's `findings`. -/
structure ComplianceFinding where
  anomaly : Anomaly
  compliant : Bool
  requires_human_oversight : Bool
  articles_referenced : List String

/-- The Jurist's compliance report. -/
structure ComplianceReport where
  status : String
  anomalies_evaluated : Nat
  requires_human_oversight : Option Bool
  findings : List ComplianceFinding
  reasoning : Option String
  timestamp : String

/-- The `compliance_report` slot of the state dict: the key can be
absent (never set), explicitly `None` (the Jurist's citation-failure
delta sets it so), or a report. -/
inductive ReportField
  | absent
  | null
  | val (r : ComplianceReport)

/-- One entry of a simulation's `details`. -/
structure RoiDetail where
  anomaly_type : String
  monthly_saving_usd : ℚ
  co2_tons_saved : ℚ

/-- The Architect's ROI simulation dict; optional fields model the
open dict (the Architect sets all of them; `{}` sets none). -/
structure SimulationResult where
  monthly_savings_usd : Option ℚ
  annual_savings_usd : Option ℚ
  npv_3yr_usd : Option ℚ
  payback_months : Option ℚ
  roi_adjustment : Option ℚ
  co2_tons_saved_monthly : Option ℚ
  co2_tons_saved_annual : Option ℚ
  water_gallons_saved_monthly : Option ℚ
  env_reduction_pct : Option ℚ
  campus_buildings : Option Nat
  details : List RoiDetail

/-- The empty simulation dict `{}`. -/
def emptySim : SimulationResult :=
  ⟨none, none, none, none, none, none, none, none, none, none, []⟩

/-- A drafted Jira ticket (`mcp/tools/jira_ops.py` payload). -/
structure JiraTicket where
  ticket_id : String
  title : String
  description : String
  priority : String
  building_id : String
  status : String

/-- A USDC settlement receipt (the Web3 adapter's payload; only the
fields the Finalizer's UI events read are modelled). -/
structure Settlement where
  amount_usdc : ℚ
  status : String
  network : String

/-- A fintech risk score (adapter payload). -/
structure RiskScore where
  score : ℚ
  category : String
  recommendation : String

/-- An FHIR observation (opaque adapter payload). -/
structure FhirObservation where
  payload : String

/-- The FHIR clinical-energy audit result (adapter payload). -/
structure FhirAudit where
  facility_id : String
  energy_efficiency_score : ℚ
  benchmark_percentile : Int
  recommendations : List String

/-- An edutech upskill hint (adapter payload). -/
structure EdutechHint where
  topic : String

/-- A media-intelligence user intent (opaque; no step in the graph
writes it). -/
structure UserIntent where
  payload : String

/-- A GENIUS-Act / MiCA fintech compliance result (adapter payload). -/
structure FinComplianceResult where
  framework : String
  compliant : Bool
  details : String

/-- The full state of the EcoVerify cyclic graph (state.py:19-70). -/
structure EcoVerifyState where
  messages : List AIMessage
  telemetry_data : Option Telemetry
  anomalies : List Anomaly
  citations : List CitationBlock
  decision_traces : List DecisionTrace
  compliance_report : ReportField
  simulation_result : Option SimulationResult
  jira_tickets : List JiraTicket
  governor_approval : Option Bool
  settlements : List Settlement
  risk_scores : List RiskScore
  fhir_observations : List FhirObservation
  edutech_hints : List EdutechHint
  user_intent : Option UserIntent
  current_phase : String
  error_log : List String
  iteration_count : Nat
  ui_events : List UiEvent

/-- A step's state delta.  Replace-policy fields are `Option` (`none` =
key absent); append-policy fields are lists (`[]` = key absent, which
merges identically).  `compliance_report := some .null` models a delta
that explicitly sets the report to `None`.  (No step ever sets
`telemetry_data`, `simulation_result` or `user_intent` to `None`, so
those deltas carry values only.) -/
structure StateDelta where
  messages : List AIMessage
  telemetry_data : Option Telemetry
  anomalies : Option (List Anomaly)
  citations : Option (List CitationBlock)
  decision_traces : List DecisionTrace
  compliance_report : Option ReportField
  simulation_result : Option SimulationResult
  jira_tickets : Option (List JiraTicket)
  governor_approval : Option Bool
  settlements : List Settlement
  risk_scores : List RiskScore
  fhir_observations : List FhirObservation
  edutech_hints : List EdutechHint
  user_intent : Option UserIntent
  current_phase : Option String
  error_log : List String
  iteration_count : Option Nat
  ui_events : List UiEvent

/-- The delta that sets nothing. -/
def emptyDelta : StateDelta :=
  ⟨[], none, none, none, [], none, none, none, none, [], [], [], [], none, none, [], none, []⟩

/-- Replace-merge of one field: the delta value when the key is
present, the old value otherwise. -/
def replOpt {α : Type} (new old : Option α) : Option α :=
  match new with
  | some v => some v
  | none => old

/-- Merge a step's delta into the state, per the `Annotated` reducers of
state.py: `operator.add` fields concatenate, everything else is
replaced when the delta carries the key. -/
def mergeState (s : EcoVerifyState) (d : StateDelta) : EcoVerifyState where
  messages := s.messages ++ d.messages
  telemetry_data := replOpt d.telemetry_data s.telemetry_data
  anomalies := d.anomalies.getD s.anomalies
  citations := d.citations.getD s.citations
  decision_traces := s.decision_traces ++ d.decision_traces
  compliance_report := d.compliance_report.getD s.compliance_report
  simulation_result := replOpt d.simulation_result s.simulation_result
  jira_tickets := d.jira_tickets.getD s.jira_tickets
  governor_approval := replOpt d.governor_approval s.governor_approval
  settlements := s.settlements ++ d.settlements
  risk_scores := s.risk_scores ++ d.risk_scores
  fhir_observations := s.fhir_observations ++ d.fhir_observations
  edutech_hints := s.edutech_hints ++ d.edutech_hints
  user_intent := replOpt d.user_intent s.user_intent
  current_phase := d.current_phase.getD s.current_phase
  error_log := s.error_log ++ d.error_log
  iteration_count := d.iteration_count.getD s.iteration_count
  ui_events := s.ui_events ++ d.ui_events

/-! ## THE VANGUARD — anomaly detection (`agents/nodes/vanguard.py`)

The BMS telemetry adapter, the clock, the signing key and the optional
LLM enrichment are outside the core; the node takes the energy and
water summaries, the raw payload bytes it cites, the timestamp, the key
and the (best-effort) LLM message as arguments.  `qstr` is the
embedding's placeholder for Python float formatting inside f-strings —
no claim depends on its exact text. -/

/-- Placeholder rendering of a rational inside a human-readable string. -/
def qstr (q : ℚ) : String := toString q

/-- The JSON form of a telemetry summary (keyed as the energy or water
variant). -/
def summaryJson (avgKey peakKey totalKey : String) (t : TelemetrySummary) : Json :=
  .obj [(.str avgKey, .rat t.avg), (.str peakKey, .rat t.peak),
        (.str "anomaly_count", .int t.anomaly_count),
        (.str totalKey, .rat t.total), (.str "hours_sampled", .int t.hours_sampled)]

/-- The anomaly classification of vanguard.py:76-112: an energy (resp.
water) anomaly is appended iff the source's own `anomaly_count` is
positive; its severity is `high` iff
`round((peak - avg) / max(avg, 1) * 100, 1)` exceeds 20 (resp. 25),
else `medium`. -/
def vanguardAnomalies (building_id : String) (e w : TelemetrySummary)
    (now_iso : String) : List Anomaly :=
  (if 0 < e.anomaly_count then
    let pct_above := pyRound 1 ((e.peak - e.avg) / max e.avg 1 * 100)
    [{ type := "energy_spike"
       building_id := building_id
       severity := if 20 < pct_above then "high" else "medium"
       metric := "+" ++ qstr pct_above ++ "% above average"
       peak := e.peak
       avg := e.avg
       anomaly_count := e.anomaly_count
       detected_at := now_iso }]
  else []) ++
  (if 0 < w.anomaly_count then
    let pct_above := pyRound 1 ((w.peak - w.avg) / max w.avg 1 * 100)
    [{ type := "water_spike"
       building_id := building_id
       severity := if 25 < pct_above then "high" else "medium"
       metric := "+" ++ qstr pct_above ++ "% above average"
       peak := w.peak
       avg := w.avg
       anomaly_count := w.anomaly_count
       detected_at := now_iso }]
  else [])

/-- `vanguard_node(state)` (vanguard.py:52-191).  `llmMsg = none` is the
deterministic fallback path (LLM disabled or erroring). -/
def vanguard_node (state : EcoVerifyState) (e w : TelemetrySummary)
    (eData wData : List Char) (now_iso : String) (sk : Ed25519PrivateKey)
    (llmMsg : Option String) : StateDelta :=
  let building_id := "HQ-01"
  let energy_citation := cite_data_source ("bms:energy:" ++ building_id) eData now_iso
    ("Energy avg=" ++ qstr e.avg ++ " kWh, peak=" ++ qstr e.peak ++ " kWh")
  let water_citation := cite_data_source ("bms:water:" ++ building_id) wData now_iso
    ("Water avg=" ++ qstr w.avg ++ " gal, peak=" ++ qstr w.peak ++ " gal")
  let anomalies := vanguardAnomalies building_id e w now_iso
  let trace := sign_decision_trace "vanguard"
    (.obj [(.str "action", .str "anomaly_scan"),
           (.str "building_id", .str building_id),
           (.str "anomalies_found", .int anomalies.length),
           (.str "energy_summary", summaryJson "avg_kwh" "peak_kwh" "total_kwh" e),
           (.str "water_summary", summaryJson "avg_gallons" "peak_gallons" "total_gallons" w)])
    now_iso sk
  let ui_events :=
    match anomalies with
    | primary :: _ =>
      [{ type := "neural_feed", agent := "VANGUARD", message := (llmMsg.getD ("Energy spike detected (" ++ primary.metric ++ ") in " ++ building_id)), severity := primary.severity, timestamp := now_iso }]
    | [] =>
      [{ type := "neural_feed", agent := "VANGUARD", message := "Telemetry nominal for " ++ building_id ++ " — no anomalies detected.", severity := "low", timestamp := now_iso }]
  { emptyDelta with
    telemetry_data := some ⟨e, w⟩
    anomalies := some anomalies
    citations := some [energy_citation, water_citation]
    decision_traces := [trace]
    current_phase := some "vanguard_complete"
    iteration_count := some (state.iteration_count + 1)
    ui_events := ui_events
    messages := [⟨"[VANGUARD] Scanned " ++ building_id ++ ": " ++
      toString anomalies.length ++ " anomalie(s) detected. Energy peak=" ++
      qstr e.peak ++ " kWh, Water peak=" ++ qstr w.peak ++ " gal.", "vanguard"⟩] }

/-! ## THE JURIST — compliance evaluation (`agents/nodes/jurist.py`)

The regulatory adapter (`query_eu_ai_act`, `check_compliance_vector`)
is outside the core: the node takes the article sections of the two
queries and the per-anomaly check function
`(action_description, risk_level) ↦ (compliant, requires_human_oversight)`
as arguments. -/

/-- `jurist_node(state)` (jurist.py:47-201). -/
def jurist_node (state : EcoVerifyState)
    (checkVec : String → String → Bool × Bool)
    (transparencyArts oversightArts : List String)
    (now_iso : String) (sk : Ed25519PrivateKey) : StateDelta :=
  let citations := state.citations
  if !verify_citations_present citations then
    { emptyDelta with
      current_phase := some "citation_failure"
      error_log := ["JURIST: Cite-Before-Act violation — no valid citations from VANGUARD."]
      ui_events := [{ type := "neural_feed", agent := "JURIST", message := "⚠ Citation verification FAILED — routing back to VANGUARD for self-correction.", severity := "high", timestamp := now_iso }]
      compliance_report := some .null
      messages := [⟨"[JURIST] Citation verification failed. Requesting VANGUARD re-scan with proper data citations.", "jurist"⟩] }
  else
    let anomalies := state.anomalies
    if anomalies.isEmpty then
      { emptyDelta with
        current_phase := some "jurist_complete"
        compliance_report := some (.val
          { status := "compliant", anomalies_evaluated := 0
            requires_human_oversight := none, findings := []
            reasoning := none, timestamp := now_iso })
        ui_events := [{ type := "neural_feed", agent := "JURIST", message := "No anomalies to evaluate — system compliant by default.", severity := "low", timestamp := now_iso }]
        messages := [⟨"[JURIST] No anomalies to evaluate. System is compliant.", "jurist"⟩] }
    else
      let findings := anomalies.map (fun a =>
        let action_desc := "Autonomous detection of " ++ a.type ++
          " anomaly in building " ++ a.building_id ++ ": " ++ a.metric
        let check := checkVec action_desc a.severity
        { anomaly := a
          compliant := check.1
          requires_human_oversight := check.2
          articles_referenced := transparencyArts.take 3 ++ oversightArts.take 2 })
      let all_compliant := findings.all (fun f => f.compliant)
      let requires_hitl := findings.any (fun f => f.requires_human_oversight)
      let report : ComplianceReport :=
        { status := if all_compliant then "compliant" else "non_compliant"
          anomalies_evaluated := anomalies.length
          requires_human_oversight := some requires_hitl
          findings := findings
          reasoning := some ("All detected anomalies fall within high-risk AI system classification " ++
            "under EU AI Act Articles 6, 9, 13, 14. Autonomous response actions require " ++
            "human oversight (Article 14) before execution. Transparency obligations " ++
            "(Article 13) satisfied through decision trace logging.")
          timestamp := now_iso }
      let trace := sign_decision_trace "jurist"
        (.obj [(.str "action", .str "compliance_evaluation"),
               (.str "status", .str report.status),
               (.str "anomalies_evaluated", .int anomalies.length),
               (.str "requires_hitl", .bool requires_hitl)])
        now_iso sk
      { emptyDelta with
        current_phase := some "jurist_complete"
        compliance_report := some (.val report)
        decision_traces := [trace]
        ui_events :=
          [{ type := "neural_feed", agent := "JURIST", message := "Verified " ++ toString anomalies.length ++ " anomalie(s) against EU AI Act — " ++ (if all_compliant then "COMPLIANT" else "NON-COMPLIANT") ++ ". Human oversight " ++ (if requires_hitl then "required" else "not required") ++ ".", severity := if all_compliant then "medium" else "high", timestamp := now_iso },
           { type := "neural_feed", agent := "JURIST", message := "Articles referenced: 6 (Classification), 9 (Risk Mgmt), 13 (Transparency), 14 (Human Oversight)", severity := "low", timestamp := now_iso }]
        messages := [⟨"[JURIST] Compliance evaluation complete: " ++ report.status ++ ".", "jurist"⟩] }

/-! ## THE ARCHITECT — ROI simulation (`agents/nodes/architect.py`) -/

/-- `_compute_roi(anomalies, roi_adjustment)` (architect.py:59-115),
with the module constants COST_PER_KWH = 0.18, COST_PER_GALLON = 0.008,
DISCOUNT_RATE = 0.08, MONTHLY_HOURS = 730, CAMPUS_BUILDINGS = 3,
CO2_TONS_PER_KWH = 0.000417, WATER_GALLONS_PER_KWH = 0.5. -/
def compute_roi (anomalies : List Anomaly) (roi_adjustment : ℚ) : SimulationResult :=
  let step := fun (acc : ℚ × ℚ × ℚ × List RoiDetail) (a : Anomaly) =>
    let contrib : ℚ × ℚ × ℚ :=
      if a.type = "energy_spike" then
        let recoverable_kwh := (a.peak - a.avg) * 730 * (35 / 100)
        (recoverable_kwh * (18 / 100) * 3,
         recoverable_kwh * (417 / 1000000) * 3,
         recoverable_kwh * (1 / 2) * 3)
      else if a.type = "water_spike" then
        let excess_gal := a.peak - a.avg
        (excess_gal * 730 * (8 / 1000) * (30 / 100) * 3,
         0,
         excess_gal * 730 * (30 / 100) * 3)
      else
        (800 * 3, 3 / 2, 500)
    let monthly_saving := contrib.1 * roi_adjustment
    (acc.1 + monthly_saving, acc.2.1 + contrib.2.1, acc.2.2.1 + contrib.2.2,
     acc.2.2.2 ++ [⟨a.type, pyRound 2 monthly_saving, pyRound 3 contrib.2.1⟩])
  let folded := anomalies.foldl step (0, 0, 0, [])
  let total_monthly_savings := folded.1
  let total_co2_tons_month := folded.2.1
  let total_water_saved_month := folded.2.2.1
  let baseline_annual_co2 : ℚ :=
    if 0 < total_co2_tons_month then total_co2_tons_month * 12 / (30 / 100) else 100
  let env_reduction_pct := pyRound 1 (total_co2_tons_month * 12 / max baseline_annual_co2 1 * 100)
  let annual_saving := total_monthly_savings * 12
  let npv_3yr := annual_saving / (1 + 8 / 100) + annual_saving / (1 + 8 / 100) ^ 2 +
    annual_saving / (1 + 8 / 100) ^ 3
  let payback_months := pyRound 1 (15000 / max total_monthly_savings 1)
  { monthly_savings_usd := some (pyRound 2 total_monthly_savings)
    annual_savings_usd := some (pyRound 2 annual_saving)
    npv_3yr_usd := some (pyRound 2 npv_3yr)
    payback_months := some payback_months
    roi_adjustment := some roi_adjustment
    co2_tons_saved_monthly := some (pyRound 3 total_co2_tons_month)
    co2_tons_saved_annual := some (pyRound 2 (total_co2_tons_month * 12))
    water_gallons_saved_monthly := some (pyRound 0 total_water_saved_month)
    env_reduction_pct := some env_reduction_pct
    campus_buildings := some 3
    details := folded.2.2.2 }

/-- `architect_node(state)` (architect.py:166-268).  The Jira adapter
(`create_maintenance_ticket`) and the scene PRNG are outside the core:
the drafted ticket for given arguments and the per-rack random energy
levels are the `create_ticket` / `rand` arguments (the 4x5 scene grid
itself is not inspected by any claim and is kept behind `rand`). -/
def architect_node (state : EcoVerifyState)
    (create_ticket : String → String → String → String → JiraTicket)
    (now_iso : String) (sk : Ed25519PrivateKey) : StateDelta :=
  let anomalies := state.anomalies
  let roi_adj : ℚ :=
    match state.governor_approval, state.simulation_result with
    | some false, some prev => prev.roi_adjustment.getD 1 * (9 / 10)
    | _, _ => 1
  let roi := compute_roi anomalies roi_adj
  let jira_tickets : List JiraTicket :=
    match anomalies with
    | primary :: _ =>
      [create_ticket
        ("[Auto] " ++ primary.type ++ " — " ++ primary.building_id)
        ("Anomaly detected: " ++ primary.metric ++ ".")
        (if primary.severity = "high" then "High" else "Medium")
        primary.building_id]
    | [] => []
  let trace := sign_decision_trace "architect"
    (.obj [(.str "action", .str "roi_simulation"),
           (.str "monthly_savings", .rat (roi.monthly_savings_usd.getD 0)),
           (.str "npv_3yr", .rat (roi.npv_3yr_usd.getD 0)),
           (.str "payback_months", .rat (roi.payback_months.getD 0)),
           (.str "co2_tons_saved_annual", .rat (roi.co2_tons_saved_annual.getD 0)),
           (.str "env_reduction_pct", .rat (roi.env_reduction_pct.getD 0)),
           (.str "campus_buildings", .int 3),
           (.str "tickets_drafted", .int jira_tickets.length)])
    now_iso sk
  let ui_events :=
    [{ type := "neural_feed", agent := "ARCHITECT", message := "ROI Simulation: +$" ++ qstr (roi.monthly_savings_usd.getD 0) ++ "/mo across 3 buildings", severity := "low", timestamp := now_iso },
     { type := "3d_update", agent := "", message := "", severity := "", timestamp := now_iso }] ++
    (match jira_tickets with
     | t :: _ =>
       [{ type := "neural_feed", agent := "ARCHITECT", message := "Jira ticket drafted: " ++ t.ticket_id, severity := "low", timestamp := now_iso }]
     | [] => [])
  { emptyDelta with
    current_phase := some "architect_complete"
    simulation_result := some roi
    jira_tickets := some jira_tickets
    decision_traces := [trace]
    ui_events := ui_events
    messages := [⟨"[ARCHITECT] ROI simulation complete: $" ++
      qstr (roi.monthly_savings_usd.getD 0) ++ "/mo, NPV 3yr $" ++
      qstr (roi.npv_3yr_usd.getD 0) ++ ". " ++ toString jira_tickets.length ++
      " ticket(s) drafted.", "architect"⟩] }

/-! ## THE GOVERNOR — the HITL breakpoint (`agents/nodes/governor.py`) -/

/-- The human response delivered when the interrupt is resumed:
`{approved: bool, roi_adjustment: float}` (either key may be missing),
or any non-dict value, which the source coerces with `bool(...)`. -/
inductive HumanResponse
  | dict (approved : Option Bool) (roi_adjustment : Option ℚ)
  | raw (truthy : Bool)

/-- `human_response.get("approved", False)` resp. `bool(human_response)`. -/
def approvedOf : HumanResponse → Bool
  | .dict a _ => a.getD false
  | .raw b => b

/-- `human_response.get("roi_adjustment", 1.0)` resp. the 1.0 default. -/
def roiAdjustmentOf : HumanResponse → ℚ
  | .dict _ r => r.getD 1
  | .raw _ => 1

/-- LangGraph's `Command(goto=…, update=…)`. -/
structure GovCommand where
  goto : String
  update : StateDelta

/-- `governor_node(state)` (governor.py:27-148), from the point where
the interrupt is resumed with `human_response`.  The pre-interrupt
`governor_panel` and waiting events travel in the interrupt payload,
not in the returned update, and are not part of the delta. -/
def governor_node (state : EcoVerifyState) (human_response : HumanResponse)
    (now_iso : String) (sk : Ed25519PrivateKey) : GovCommand :=
  let simulation := state.simulation_result.getD emptySim
  let approved := approvedOf human_response
  let roi_adjustment := roiAdjustmentOf human_response
  let trace := sign_decision_trace "governor"
    (.obj [(.str "action", .str "human_approval"),
           (.str "approved", .bool approved),
           (.str "roi_adjustment", .rat roi_adjustment)])
    now_iso sk
  if approved then
    { goto := "finalize"
      update := { emptyDelta with
        governor_approval := some true
        current_phase := some "governor_approved"
        decision_traces := [trace]
        ui_events := [{ type := "neural_feed", agent := "GOVERNOR", message := "✅ Action APPROVED by human operator.", severity := "low", timestamp := now_iso }]
        messages := [⟨"[GOVERNOR] Human operator approved the action. Proceeding to finalisation.", "governor"⟩] } }
  else
    { goto := "architect"
      update := { emptyDelta with
        governor_approval := some false
        current_phase := some "governor_rejected"
        decision_traces := [trace]
        simulation_result := some { simulation with roi_adjustment := some roi_adjustment }
        ui_events := [{ type := "neural_feed", agent := "GOVERNOR", message := "❌ Action REJECTED. Re-simulating with ROI adjustment ×" ++ qstr roi_adjustment ++ ".", severity := "medium", timestamp := now_iso }]
        messages := [⟨"[GOVERNOR] Action rejected. Re-routing to ARCHITECT with ROI adjustment " ++
          qstr roi_adjustment ++ ".", "governor"⟩] } }

/-! ## The Mermaid proof-graph builder (`agents/nodes/finalize.py:25-79`) -/

/-- `decision.get(key, default)` on a JSON object. -/
def jsonLookup (d : Json) (key : String) : Option Json :=
  match d with
  | .obj fs => (fs.find? (fun p => match p.1 with | .str s => s == key | _ => false)).map
      (fun p => p.2)
  | _ => none

/-- Python `str(...)` of a scalar JSON value as an f-string embeds it
(container rendering is not needed by the builder's inputs). -/
def jsonAsPyStr : Json → String
  | .str s => s
  | .int n => toString n
  | .rat q => qstr q
  | .bool b => if b then "True" else "False"
  | .null => "None"
  | .arr _ => "[...]"
  | .obj _ => "..."

/-- `f"{agent}_{i}"`. -/
def mermaidNodeId (t : DecisionTrace) (i : Nat) : String :=
  t.agent_id ++ "_" ++ toString i

/-- Node shape by role: rhombus for the governor, stadium for the
vanguard, rectangle otherwise. -/
def mermaidShapeOpen (agent : String) : String :=
  if agent = "governor" then "\x7b" else if agent = "vanguard" then "([" else "["

/-- Closing bracket matching `mermaidShapeOpen`. -/
def mermaidShapeClose (agent : String) : String :=
  if agent = "governor" then "\x7d" else if agent = "vanguard" then "])" else "]"

/-- The `extra` annotation of a node label (finalize.py:48-55); the
`{:,.0f}` money formatting is abstracted by `qstr` of the rounded
value. -/
def mermaidExtra (d : Json) : String :=
  match jsonLookup d "monthly_savings" with
  | some v => "\\n$" ++ jsonAsPyStr v ++ "/mo"
  | none =>
    match jsonLookup d "anomalies_found" with
    | some v => "\\n" ++ jsonAsPyStr v ++ " anomalie(s)"
    | none =>
      match jsonLookup d "status" with
      | some v => "\\n" ++ jsonAsPyStr v
      | none =>
        match jsonLookup d "approved" with
        | some (.bool true) => "\\n✅ Approved"
        | some _ => "\\n❌ Rejected"
        | none => ""

/-- One node declaration line. -/
def mermaidNodeLine (t : DecisionTrace) (i : Nat) : String :=
  let agent := t.agent_id
  let action := (jsonLookup t.decision "action").map jsonAsPyStr |>.getD "unknown"
  "    " ++ mermaidNodeId t i ++ mermaidShapeOpen agent ++ "\"" ++
    agent.toUpper ++ "\\n" ++ action ++ mermaidExtra t.decision ++ "\"" ++
    mermaidShapeClose agent

/-- One edge line; the label carries the first 8 characters of the
*destination* trace's `payload_hash`. -/
def mermaidEdgeLine (src : String) (t : DecisionTrace) (i : Nat) : String :=
  "    " ++ src ++ " -->|\"sig:" ++ t.payload_hash.take 8 ++ "\"| " ++ mermaidNodeId t i

/-- The node/edge section of the diagram: the source's loop over
traces, threading the previous node's name, then the closing edge to
the synthetic END node. -/
def mermaidBody : List DecisionTrace → Nat → String → List String
  | [], _, prev => ["    " ++ prev ++ " --> END((\"✅ Complete\"))"]
  | t :: rest, i, prev =>
    mermaidNodeLine t i :: mermaidEdgeLine prev t i ::
      mermaidBody rest (i + 1) (mermaidNodeId t i)

/-- The per-role `class` assignment lines (finalize.py:73-77). -/
def mermaidClassLines : List DecisionTrace → Nat → List String
  | [], _ => []
  | t :: rest, i =>
    (if t.agent_id = "vanguard" ∨ t.agent_id = "jurist" ∨
        t.agent_id = "architect" ∨ t.agent_id = "governor" then
      ["    class " ++ mermaidNodeId t i ++ " " ++ t.agent_id]
    else []) ++ mermaidClassLines rest (i + 1)

/-- The fixed `classDef` styling lines. -/
def mermaidClassDefs : List String :=
  ["    classDef vanguard fill:#1e40af,stroke:#3b82f6,color:#fff",
   "    classDef jurist fill:#6b21a8,stroke:#a855f7,color:#fff",
   "    classDef architect fill:#065f46,stroke:#10b981,color:#fff",
   "    classDef governor fill:#92400e,stroke:#f59e0b,color:#fff"]

/-- All lines of the diagram, in the order the source appends them. -/
def mermaidLines (decision_traces : List DecisionTrace)
    (anomalies : List Anomaly) : List String :=
  ["graph TD", "    START((\"🔄 Start\"))"] ++
  mermaidBody decision_traces 0 "START" ++
  [""] ++ mermaidClassDefs ++ mermaidClassLines decision_traces 0

/-- `_build_mermaid_graph(decision_traces, anomalies)`. -/
def build_mermaid_graph (decision_traces : List DecisionTrace)
    (anomalies : List Anomaly) : String :=
  String.intercalate "\n" (mermaidLines decision_traces anomalies)

/-! ## FINALIZE (`agents/nodes/finalize.py:82-365`)

All adapter calls of the node (settlement, risk scoring, edutech
friction, FHIR audit, fintech compliance) are best-effort `try`-blocks
whose outcomes are explicit arguments; a `none` / `[]` argument models
the adapter failing, being skipped (e.g. zero fee) or returning
nothing, in which case its contribution is omitted and the step still
succeeds. -/

/-- `finalize_node(state)`. -/
def finalize_node (state : EcoVerifyState)
    (settlementReceipt : Option Settlement) (riskScore : Option RiskScore)
    (eduHints : List EdutechHint) (fhirObs : List FhirObservation)
    (fhirAudit : Option FhirAudit) (complianceResults : List FinComplianceResult)
    (now_iso : String) : StateDelta :=
  let decision_traces := state.decision_traces
  let anomalies := state.anomalies
  let mermaid_definition := build_mermaid_graph decision_traces anomalies
  let settlements := settlementReceipt.toList
  let risk_scores := riskScore.toList
  let edutech_hints := eduHints
  let ui_events : List UiEvent :=
    [{ type := "proof_graph", agent := "", message := mermaid_definition, severity := "", timestamp := now_iso },
     { type := "neural_feed", agent := "SYSTEM", message := "Loop complete: " ++ toString anomalies.length ++ " anomalie(s) resolved.", severity := "low", timestamp := now_iso },
     { type := "execution_complete", agent := "", message := "", severity := "", timestamp := now_iso }] ++
    (match settlements with
     | s :: _ =>
       [{ type := "settlement_update", agent := "SYSTEM", message := "USDC settlement: $" ++ qstr s.amount_usdc ++ " (" ++ s.status ++ ")", severity := "low", timestamp := now_iso },
        { type := "neural_feed", agent := "SYSTEM", message := "💰 A2A settlement: $" ++ qstr s.amount_usdc ++ " USDC on " ++ s.network, severity := "low", timestamp := now_iso }]
     | [] => []) ++
    (match risk_scores with
     | rs :: _ =>
       [{ type := "risk_alert", agent := "SYSTEM", message := "Risk score: " ++ qstr rs.score ++ "/100 (" ++ rs.category ++ ")", severity := if 70 ≤ rs.score then "high" else if 40 ≤ rs.score then "medium" else "low", timestamp := now_iso },
        { type := "neural_feed", agent := "SYSTEM", message := "📊 Risk Assessment: " ++ qstr rs.score ++ "/100 — " ++ rs.recommendation, severity := if 40 ≤ rs.score then "medium" else "low", timestamp := now_iso }]
     | [] => []) ++
    (edutech_hints.map (fun hint =>
      { type := "edutech_hint", agent := "SYSTEM", message := "📚 Upskill: " ++ hint.topic, severity := "low", timestamp := now_iso })) ++
    (match fhirAudit with
     | some audit =>
       [{ type := "fhir_audit", agent := "FHIR", message := "🏥 FHIR Audit: " ++ audit.facility_id, severity := if audit.energy_efficiency_score < 60 then "medium" else "low", timestamp := now_iso },
        { type := "neural_feed", agent := "FHIR", message := "🏥 Clinical energy audit: " ++ qstr audit.energy_efficiency_score ++ "/100 efficiency, " ++ toString audit.recommendations.length ++ " recommendation(s)", severity := "low", timestamp := now_iso }]
     | none => []) ++
    (complianceResults.map (fun cr =>
      { type := "neural_feed", agent := "FINTECH", message := (if cr.compliant then "✅ " else "⚠️ ") ++ cr.framework ++ ": " ++ cr.details, severity := if cr.compliant then "low" else "high", timestamp := now_iso }))
  { emptyDelta with
    current_phase := some "complete"
    settlements := settlements
    risk_scores := risk_scores
    edutech_hints := edutech_hints
    fhir_observations := fhirObs
    ui_events := ui_events
    messages := [⟨"[SYSTEM] Execution complete. " ++ toString anomalies.length ++ " anomalie(s), " ++ toString settlements.length ++ " settlement(s).", "system"⟩] }

/-! ## Routers (`agents/edges.py`)

`MAX_ITERATIONS = 5`. -/

/-- `route_after_vanguard(state)` (edges.py:24-31). -/
def route_after_vanguard (state : EcoVerifyState) : String :=
  if !state.anomalies.isEmpty then "jurist" else "__end__"

/-- `route_after_jurist(state)` (edges.py:34-60).  The `none` result
models the `AttributeError` the source raises when the state carries an
explicit `compliance_report = None` outside the citation-failure branch
(`None.get` on line 53); an absent key defaults to `{}`, whose status
reads `"unknown"`. -/
def route_after_jurist (state : EcoVerifyState) : Option String :=
  if state.current_phase = "citation_failure" then
    some (if 5 ≤ state.iteration_count then "__end__" else "vanguard")
  else
    match state.compliance_report with
    | .absent => some "architect"
    | .null => none
    | .val r => some (if r.status = "non_compliant" then "governor" else "architect")

/-- `route_after_architect(state)` (edges.py:63-66). -/
def route_after_architect (_ : EcoVerifyState) : String := "governor"
/-- The state with no keys set. -/
def emptyState : EcoVerifyState :=
  ⟨[], none, [], [], [], .absent, none, [], none, [], [], [], [], none, "", [], 0, []⟩

/-- C3: on any state whose citations fail `verify_citations_present`,
the Jurist's delta sets `current_phase = "citation_failure"`, appends
exactly one error-log entry and exactly one high-severity warning UI
event, sets the compliance report to `None` (so the merged state has no
report), and carries no decision trace. -/
theorem jurist_citation_failure (s : EcoVerifyState)
    (checkVec : String → String → Bool × Bool) (tArts oArts : List String)
    (now_iso : String) (sk : Ed25519PrivateKey)
    (h : verify_citations_present s.citations = false) :
    (jurist_node s checkVec tArts oArts now_iso sk).current_phase = some "citation_failure" ∧
    (jurist_node s checkVec tArts oArts now_iso sk).error_log.length = 1 ∧
    (jurist_node s checkVec tArts oArts now_iso sk).ui_events.length = 1 ∧
    (∀ e ∈ (jurist_node s checkVec tArts oArts now_iso sk).ui_events,
      e.type = "neural_feed" ∧ e.severity = "high") ∧
    (jurist_node s checkVec tArts oArts now_iso sk).compliance_report = some .null ∧
    (mergeState s (jurist_node s checkVec tArts oArts now_iso sk)).compliance_report = .null ∧
    (jurist_node s checkVec tArts oArts now_iso sk).decision_traces = [] := by
  simp only [jurist_node, h, Bool.not_false, if_true, mergeState, emptyDelta]
  refine ⟨by trivial, by trivial, by trivial, ?_, by trivial, by trivial, by trivial⟩
  intro e he
  simp only [List.mem_singleton] at he
  subst he
  exact ⟨rfl, rfl⟩

/-- Witness for C3 at the empty state (empty citation list). -/
theorem jurist_citation_failure_witness :
    (jurist_node emptyState (fun _ _ => (true, true)) [] [] "t" ⟨0⟩).current_phase =
      some "citation_failure" ∧
    (jurist_node emptyState (fun _ _ => (true, true)) [] [] "t" ⟨0⟩).error_log.length = 1 ∧
    (jurist_node emptyState (fun _ _ => (true, true)) [] [] "t" ⟨0⟩).ui_events.length = 1 ∧
    (∀ e ∈ (jurist_node emptyState (fun _ _ => (true, true)) [] [] "t" ⟨0⟩).ui_events,
      e.type = "neural_feed" ∧ e.severity = "high") ∧
    (jurist_node emptyState (fun _ _ => (true, true)) [] [] "t" ⟨0⟩).compliance_report =
      some .null ∧
    (mergeState emptyState
      (jurist_node emptyState (fun _ _ => (true, true)) [] [] "t" ⟨0⟩)).compliance_report =
      .null ∧
    (jurist_node emptyState (fun _ _ => (true, true)) [] [] "t" ⟨0⟩).decision_traces = [] :=
  jurist_citation_failure emptyState (fun _ _ => (true, true)) [] [] "t" ⟨0⟩ (by decide)

/-- C4: on every valid post-Jurist state (citation-failure phase, or a
present compliance report), `route_after_jurist` returns a value of its
codomain: `__end__` when the phase is `citation_failure` and the
iteration count has reached 5, `vanguard` on citation failure below the
cap, `governor` when the report's status is `non_compliant`, and
`architect` otherwise. -/
theorem route_after_jurist_total (s : EcoVerifyState)
    (h : s.current_phase = "citation_failure" ∨ ∃ r, s.compliance_report = .val r) :
    ∃ next, route_after_jurist s = some next ∧
      (next = "vanguard" ∨ next = "governor" ∨ next = "architect" ∨ next = "__end__") ∧
      (s.current_phase = "citation_failure" →
        next = if 5 ≤ s.iteration_count then "__end__" else "vanguard") ∧
      (s.current_phase ≠ "citation_failure" → ∀ r, s.compliance_report = .val r →
        next = if r.status = "non_compliant" then "governor" else "architect") := by
  by_cases hp : s.current_phase = "citation_failure"
  · refine ⟨if 5 ≤ s.iteration_count then "__end__" else "vanguard", ?_, ?_, ?_, ?_⟩
    · simp [route_after_jurist, hp]
    · split_ifs <;> simp
    · intro; rfl
    · intro hcon; exact absurd hp hcon
  · rcases h with hcon | ⟨r, hr⟩
    · exact absurd hcon hp
    · refine ⟨if r.status = "non_compliant" then "governor" else "architect", ?_, ?_, ?_, ?_⟩
      · simp [route_after_jurist, hp, hr]
      · split_ifs <;> simp
      · intro hcon; exact absurd hcon hp
      · intro _ r' hr'
        rw [hr] at hr'
        cases hr'
        rfl

/-- Witness for C4: a non-compliant post-Jurist state routes to the
governor. -/
theorem route_after_jurist_total_witness :
    ∃ next, route_after_jurist { emptyState with
        current_phase := "jurist_complete",
        compliance_report := .val ⟨"non_compliant", 1, some true, [], none, "t"⟩ } = some next ∧
      (next = "vanguard" ∨ next = "governor" ∨ next = "architect" ∨ next = "__end__") ∧
      (({ emptyState with
          current_phase := "jurist_complete",
          compliance_report := .val ⟨"non_compliant", 1, some true, [], none, "t"⟩ } :
          EcoVerifyState).current_phase = "citation_failure" →
        next = if 5 ≤ ({ emptyState with
          current_phase := "jurist_complete",
          compliance_report := .val ⟨"non_compliant", 1, some true, [], none, "t"⟩ } :
          EcoVerifyState).iteration_count then "__end__" else "vanguard") ∧
      (({ emptyState with
          current_phase := "jurist_complete",
          compliance_report := .val ⟨"non_compliant", 1, some true, [], none, "t"⟩ } :
          EcoVerifyState).current_phase ≠ "citation_failure" →
        ∀ r, ({ emptyState with
          current_phase := "jurist_complete",
          compliance_report := .val ⟨"non_compliant", 1, some true, [], none, "t"⟩ } :
          EcoVerifyState).compliance_report = .val r →
        next = if r.status = "non_compliant" then "governor" else "architect") :=
  route_after_jurist_total _ (Or.inr ⟨⟨"non_compliant", 1, some true, [], none, "t"⟩, rfl⟩)

/-- C5: for every state and every human response delivered at the
interrupt, the Governor's Command has exactly one of two shapes:
approved → goto `finalize` with `governor_approval = true` and phase
`governor_approved` (and no simulation update); rejected → goto
`architect` with `governor_approval = false`, phase
`governor_rejected`, and the previous simulation result with
`roi_adjustment` overridden by the human-supplied value. -/
theorem governor_command_shapes (s : EcoVerifyState) (hr : HumanResponse)
    (now_iso : String) (sk : Ed25519PrivateKey) :
    (governor_node s hr now_iso sk).goto =
      (if approvedOf hr then "finalize" else "architect") ∧
    (governor_node s hr now_iso sk).update.governor_approval = some (approvedOf hr) ∧
    (governor_node s hr now_iso sk).update.current_phase =
      some (if approvedOf hr then "governor_approved" else "governor_rejected") ∧
    (governor_node s hr now_iso sk).update.simulation_result =
      (if approvedOf hr then none
       else some { s.simulation_result.getD emptySim with
         roi_adjustment := some (roiAdjustmentOf hr) }) := by
  cases hap : approvedOf hr <;>
    simp [governor_node, hap, emptyDelta]

/-- C6 (counterexample).  The Detector does not fire "exactly when the
hourly peak exceeds the mean by the type-specific percentage and
anomaly_count is positive": with peak = avg = 100 and anomaly_count = 1
(so the peak exceeds the mean by nothing at all) an energy anomaly is
still emitted.  And severity is not "high" iff (peak - avg)/avg > 20%:
with avg = 100 and peak = 120.04 the exact ratio is 20.04% > 20%, yet
the code rounds the percentage to one decimal (20.0) before comparing
and assigns "medium". -/
theorem vanguard_counterexample :
    ((vanguardAnomalies "HQ-01" ⟨100, 100, 1, 2400, 24⟩ ⟨0, 0, 0, 0, 24⟩ "t").countP
        (fun a => a.type == "energy_spike") = 1 ∧
      ¬ (((100 : ℚ) - 100) / 100 > 20 / 100)) ∧
    (((vanguardAnomalies "HQ-01" ⟨100, 3001/25, 1, 2400, 24⟩ ⟨0, 0, 0, 0, 24⟩ "t").filter
        (fun a => a.type == "energy_spike")).map (fun a => a.severity) = ["medium"] ∧
      ((3001 / 25 : ℚ) - 100) / 100 > 20 / 100) := by
  have hp : pyRound 1 ((3001 : ℚ) / 25 - 100) = 20 := by
    simp only [pyRound, roundHalfEven]
    rw [show ((3001 : ℚ) / 25 - 100) * 10 ^ (1 : ℕ) = 1002 / 5 by norm_num]
    rw [show (⌊(1002 : ℚ) / 5⌋ : ℤ) = 200 by norm_num [Int.floor_eq_iff]]
    rw [if_pos (by norm_num)]
    norm_num
  refine ⟨⟨?_, by norm_num⟩, ?_, by norm_num⟩
  · simp [vanguardAnomalies]
  · simp [vanguardAnomalies, hp]

/-- C6 (amended).  For every telemetry summary, the Detector emits an
energy (resp. water) anomaly exactly when the source's own
anomaly_count is positive — the peak/mean gap plays no role in firing —
and assigns severity "high" iff round((peak - avg)/max(avg,1)*100, 1)
exceeds 20 for energy (resp. 25 for water), else "medium". -/
theorem vanguard_anomalies_amended (bid : String) (e w : TelemetrySummary) (ts : String) :
    ((vanguardAnomalies bid e w ts).countP (fun a => a.type == "energy_spike") =
      if 0 < e.anomaly_count then 1 else 0) ∧
    ((vanguardAnomalies bid e w ts).countP (fun a => a.type == "water_spike") =
      if 0 < w.anomaly_count then 1 else 0) ∧
    (((vanguardAnomalies bid e w ts).filter (fun a => a.type == "energy_spike")).map
        (fun a => a.severity) =
      if 0 < e.anomaly_count then
        [if 20 < pyRound 1 ((e.peak - e.avg) / max e.avg 1 * 100) then "high" else "medium"]
      else []) ∧
    (((vanguardAnomalies bid e w ts).filter (fun a => a.type == "water_spike")).map
        (fun a => a.severity) =
      if 0 < w.anomaly_count then
        [if 25 < pyRound 1 ((w.peak - w.avg) / max w.avg 1 * 100) then "high" else "medium"]
      else []) := by
  unfold vanguardAnomalies
  by_cases he : 0 < e.anomaly_count <;> by_cases hw : 0 < w.anomaly_count <;>
    simp [he, hw, List.countP_cons, List.countP_nil]

/-- The eight `operator.add` / `add_messages` fields of the state each
grow from `s` to `s'`: the old list is an initial segment of the new. -/
def StateGrows (s s' : EcoVerifyState) : Prop :=
  (∃ t, s'.messages = s.messages ++ t) ∧
  (∃ t, s'.decision_traces = s.decision_traces ++ t) ∧
  (∃ t, s'.settlements = s.settlements ++ t) ∧
  (∃ t, s'.risk_scores = s.risk_scores ++ t) ∧
  (∃ t, s'.fhir_observations = s.fhir_observations ++ t) ∧
  (∃ t, s'.edutech_hints = s.edutech_hints ++ t) ∧
  (∃ t, s'.error_log = s.error_log ++ t) ∧
  (∃ t, s'.ui_events = s.ui_events ++ t)

/-- Merging any delta only appends to the append-policy fields. -/
theorem mergeState_grows (s : EcoVerifyState) (d : StateDelta) :
    StateGrows s (mergeState s d) :=
  ⟨⟨_, rfl⟩, ⟨_, rfl⟩, ⟨_, rfl⟩, ⟨_, rfl⟩, ⟨_, rfl⟩, ⟨_, rfl⟩, ⟨_, rfl⟩, ⟨_, rfl⟩⟩

/-- C8: for each of the five step functions and every pre-state (and
every choice of the steps' adapter inputs), merging the step's delta
into the pre-state leaves every append-policy field (messages,
decision_traces, settlements, risk_scores, fhir_observations,
edutech_hints, error_log, ui_events) with the pre-state's list as a
prefix — append fields only ever grow. -/
theorem steps_append_only (s : EcoVerifyState)
    (e w : TelemetrySummary) (eData wData : List Char) (now_iso : String)
    (sk : Ed25519PrivateKey) (llmMsg : Option String)
    (checkVec : String → String → Bool × Bool)
    (transparencyArts oversightArts : List String)
    (create_ticket : String → String → String → String → JiraTicket)
    (hr : HumanResponse)
    (settlementReceipt : Option Settlement) (riskScore : Option RiskScore)
    (eduHints : List EdutechHint) (fhirObs : List FhirObservation)
    (fhirAudit : Option FhirAudit) (complianceResults : List FinComplianceResult) :
    StateGrows s (mergeState s (vanguard_node s e w eData wData now_iso sk llmMsg)) ∧
    StateGrows s (mergeState s
      (jurist_node s checkVec transparencyArts oversightArts now_iso sk)) ∧
    StateGrows s (mergeState s (architect_node s create_ticket now_iso sk)) ∧
    StateGrows s (mergeState s (governor_node s hr now_iso sk).update) ∧
    StateGrows s (mergeState s (finalize_node s settlementReceipt riskScore
      eduHints fhirObs fhirAudit complianceResults now_iso)) :=
  ⟨mergeState_grows s _, mergeState_grows s _, mergeState_grows s _,
   mergeState_grows s _, mergeState_grows s _⟩

/-- Node identifiers of the traces numbered from `i`, per the source's
`f"\x7bagent\x7d_\x7bi\x7d"`. -/
def mermaidSpecIds (i : Nat) (traces : List DecisionTrace) : List String :=
  (List.enumFrom i traces).map (fun p => mermaidNodeId p.2 p.1)

/-- Closed form of the builder's node/edge loop: pair each trace with
its predecessor node's name (`prev` for the first, the previous trace's
node id after), emit a node line and an edge line per pair — the edge
label carrying the first 8 characters of the pair's own (destination)
trace hash — then close with an unlabeled edge into END. -/
theorem mermaidBody_eq_spec (l : List DecisionTrace) (i : Nat) (prev : String) :
    mermaidBody l i prev =
      (List.zip (prev :: mermaidSpecIds i l) (List.enumFrom i l)).flatMap
        (fun p => [mermaidNodeLine p.2.2 p.2.1,
          "    " ++ p.1 ++ " -->|\"sig:" ++ p.2.2.payload_hash.take 8 ++ "\"| " ++
            mermaidNodeId p.2.2 p.2.1]) ++
      ["    " ++ ((prev :: mermaidSpecIds i l).getLastD "") ++
        " --> END((\"✅ Complete\"))"] := by
  induction l generalizing i prev with
  | nil => simp [mermaidBody, mermaidSpecIds, List.enumFrom]
  | cons t rest ih =>
    simp only [mermaidBody, mermaidSpecIds, List.enumFrom, List.map_cons, List.zip_cons_cons,
      List.flatMap_cons, mermaidEdgeLine, ih, List.cons_append, List.getLastD_cons]
    simp [mermaidSpecIds]

/-- Closed form of the styling loop: one `class` line per trace whose
agent is one of the four roles. -/
theorem mermaidClassLines_eq_spec (l : List DecisionTrace) (i : Nat) :
    mermaidClassLines l i =
      (List.enumFrom i l).flatMap (fun p =>
        if p.2.agent_id = "vanguard" ∨ p.2.agent_id = "jurist" ∨
            p.2.agent_id = "architect" ∨ p.2.agent_id = "governor" then
          ["    class " ++ mermaidNodeId p.2 p.1 ++ " " ++ p.2.agent_id]
        else []) := by
  induction l generalizing i with
  | nil => simp [mermaidClassLines, List.enumFrom]
  | cons t rest ih => simp [mermaidClassLines, List.enumFrom, ih]

/-- C9 (amended).  The proof graph opens with the synthetic START node,
renders exactly one node per trace (shape by role: stadium/ellipse for
vanguard, rhombus for governor, rectangle otherwise), chains edges
START → node 0 → … → node n-1 → END where each trace edge's label
carries the first 8 characters of the *destination* trace's
payload_hash (not the source's) and the closing edge into the synthetic
END node is unlabeled, then emits the four classDef styling lines and
one class line per role-named trace. -/
theorem mermaid_graph_amended (traces : List DecisionTrace) (anomalies : List Anomaly) :
    (mermaidLines traces anomalies =
      ["graph TD", "    START((\"🔄 Start\"))"] ++
      ((List.zip ("START" :: mermaidSpecIds 0 traces) (List.enumFrom 0 traces)).flatMap
        (fun p => [mermaidNodeLine p.2.2 p.2.1,
          "    " ++ p.1 ++ " -->|\"sig:" ++ p.2.2.payload_hash.take 8 ++ "\"| " ++
            mermaidNodeId p.2.2 p.2.1]) ++
       ["    " ++ (("START" :: mermaidSpecIds 0 traces).getLastD "") ++
         " --> END((\"✅ Complete\"))"]) ++
      [""] ++ mermaidClassDefs ++
      (List.enumFrom 0 traces).flatMap (fun p =>
        if p.2.agent_id = "vanguard" ∨ p.2.agent_id = "jurist" ∨
            p.2.agent_id = "architect" ∨ p.2.agent_id = "governor" then
          ["    class " ++ mermaidNodeId p.2 p.1 ++ " " ++ p.2.agent_id]
        else [])) ∧
    mermaidShapeOpen "vanguard" = "([" ∧ mermaidShapeClose "vanguard" = "])" ∧
    mermaidShapeOpen "jurist" = "[" ∧ mermaidShapeClose "jurist" = "]" ∧
    mermaidShapeOpen "architect" = "[" ∧ mermaidShapeClose "architect" = "]" ∧
    mermaidShapeOpen "governor" = "\x7b" ∧ mermaidShapeClose "governor" = "\x7d" := by
  refine ⟨?_, rfl, rfl, rfl, rfl, rfl, rfl, rfl, rfl⟩
  simp only [mermaidLines, mermaidBody_eq_spec, mermaidClassLines_eq_spec, List.append_assoc,
    List.cons_append, List.nil_append]

/-- A vanguard trace whose payload hash starts with eight as. -/
def ctr0 : DecisionTrace :=
  { agent_id := "vanguard", timestamp := "t0", decision := .obj []
    payload_hash := "aaaaaaaaaaaaaaaaaaaaaaaaaaaaaaaaaaaaaaaaaaaaaaaaaaaaaaaaaaaaaaaa"
    signature := "" }

/-- A jurist trace whose payload hash starts with eight bs. -/
def ctr1 : DecisionTrace :=
  { agent_id := "jurist", timestamp := "t1", decision := .obj []
    payload_hash := "bbbbbbbbbbbbbbbbbbbbbbbbbbbbbbbbbbbbbbbbbbbbbbbbbbbbbbbbbbbbbbbb"
    signature := "" }

/-- C9 (counterexample).  Edges are not labeled with the *source*
trace's hash: with two traces the edge out of the vanguard node (the
source, hash prefix aaaaaaaa) carries sig:bbbbbbbb — the first 8
characters of the destination jurist trace's hash. -/
theorem mermaid_counterexample :
    (mermaidLines [ctr0, ctr1] []).get? 5 =
      some "    vanguard_0 -->|\"sig:bbbbbbbb\"| jurist_1" ∧
    ctr0.payload_hash.take 8 = "aaaaaaaa" ∧
    "aaaaaaaa" ≠ "bbbbbbbb" := by
  refine ⟨?_, rfl, by decide⟩
  rfl

/-- C10: the generated diagram depends only on the decision traces —
`_build_mermaid_graph` never reads its `anomalies` parameter, so any
two anomalies inputs yield byte-identical output. -/
theorem mermaid_anomaly_independence (traces : List DecisionTrace)
    (a a' : List Anomaly) :
    build_mermaid_graph traces a = build_mermaid_graph traces a' := rfl
end EcoVerify
